import Mathlib

/-!
# upower: battery state machine, device enumerator and keyboard-backlight group

A shallow embedding of

* `src/dkp-supply.c` (battery refresh, derived queries),
* `src/up-kbd-backlight.c` (backlight group),
* `src/linux/up-enumerator-udev.c` (hotplug reconciliation),

followed by the properties established for them.

Conventions of the embedding.

* A C `gdouble` that is always finite in the code (a sysfs reading divided by a
  non-zero constant, a copy of such a value, the constant `-1`, a quotient by a
  divisor the code has tested to be non-zero) is an exact rational: rounding and
  overflow of the binary format are not modelled.  Where a property depends on
  the rounding (the threshold of `dkp_supply_calculate_rate`), the function is
  also given with the arithmetic of doubles as a parameter (`DoubleArith`).
* A `gdouble` computed by a division whose divisor may be zero (`percentage`,
  `capacity`) is a `Dbl`, which adds the IEEE 754 special values.  The divisors
  are never a negative zero: they come from finite readings.
* What the code reads from outside (sysfs attributes, the clock, the result of
  `write`) is an argument of the embedded function.
-/

namespace UPower

/-! ## Doubles with the IEEE 754 special values -/

/-- A `gdouble` that may be infinite or not-a-number. -/
inductive Dbl where
  | fin (q : ℚ)
  | pinf
  | ninf
  | nan
  deriving DecidableEq

namespace Dbl

/-- The C quotient `a / b` of two finite doubles (`b` is never `-0.0`): a
zero divisor gives an infinity of the sign of `a`, and `0.0 / 0.0` is NaN. -/
def div (a b : ℚ) : Dbl :=
  if b = 0 then
    if a = 0 then nan else if 0 < a then pinf else ninf
  else fin (a / b)

/-- The C product `d * c` for a finite constant `c > 0`. -/
def mulPos (d : Dbl) (c : ℚ) : Dbl :=
  match d with
  | fin q => fin (q * c)
  | pinf => pinf
  | ninf => ninf
  | nan => nan

/-- The C comparison `d < c` with a finite `c`; every comparison with NaN is false. -/
def ltQ (d : Dbl) (c : ℚ) : Bool :=
  match d with
  | fin q => decide (q < c)
  | pinf => false
  | ninf => true
  | nan => false

/-- The C comparison `d > c` with a finite `c`; every comparison with NaN is false. -/
def gtQ (d : Dbl) (c : ℚ) : Bool :=
  match d with
  | fin q => decide (c < q)
  | pinf => true
  | ninf => false
  | nan => false

/-- The value lies in the closed interval `[lo, hi]` (in particular it is a number). -/
def InRange (d : Dbl) (lo hi : ℚ) : Prop :=
  ∃ q : ℚ, d = fin q ∧ lo ≤ q ∧ q ≤ hi

/-- The two C statements `if (d < 0) d = 0; if (d > 100.0) d = 100.0;`. -/
def clamp_0_100 (d : Dbl) : Dbl :=
  let d := if d.ltQ 0 then fin 0 else d
  if d.gtQ 100 then fin 100 else d

end Dbl

/-- The conversion of a finite double to `gint64`: truncation toward zero.  A
value outside the range of `gint64` gives `G_MININT64`, the result of the
conversion instruction of x86-64 (the C standard leaves that case undefined). -/
def double_to_gint64 (q : ℚ) : Int :=
  let t : Int := if 0 ≤ q then ⌊q⌋ else ⌈q⌉
  if t < -9223372036854775808 ∨ 9223372036854775807 < t then -9223372036854775808 else t

/-! ## C strings -/

/-- The `g_ascii_isspace` of GLib: space, `\t`, `\n`, `\f`, `\r` (the vertical
tab is not white space for GLib). -/
def g_ascii_isspace (c : Char) : Bool :=
  c.toNat = 32 || c.toNat = 9 || c.toNat = 10 || c.toNat = 12 || c.toNat = 13

/-- The macro `ISSPACE` of `gstrfuncs.c`, the white space that the number
parsers of GLib skip: space, `\t`, `\n`, `\v`, `\f`, `\r`. -/
def ISSPACE (c : Char) : Bool :=
  c.toNat = 32 || c.toNat = 9 || c.toNat = 10 || c.toNat = 11 || c.toNat = 12 || c.toNat = 13

/-- The `g_strchug` of GLib: removes leading whitespace. -/
def g_strchug (s : List Char) : List Char :=
  s.dropWhile g_ascii_isspace

/-- The `g_strchomp` of GLib: removes trailing whitespace. -/
def g_strchomp (s : List Char) : List Char :=
  (s.reverse.dropWhile g_ascii_isspace).reverse

/-- The `g_strstrip` of GLib: `g_strchomp (g_strchug s)`. -/
def g_strstrip (s : String) : String :=
  ⟨g_strchomp (g_strchug s.data)⟩

/-- The test `strcasecmp (a, b) == 0` (C locale: ASCII case folding). -/
def strcasecmp_eq (a b : String) : Bool :=
  a.data.map Char.toLower == b.data.map Char.toLower

/-! ## `dkp-supply.c`: data model -/

/-- The `DkpDeviceType` of `dkp-enum.h`. -/
inductive DkpDeviceType where
  | unknown | line_power | battery | ups | mouse | keyboard | pda | phone
  deriving DecidableEq

/-- The `DkpDeviceState` of `dkp-enum.h`. -/
inductive DkpDeviceState where
  | unknown | charging | discharging | empty | fully_charged
  deriving DecidableEq

/-- The `DkpDeviceTechnology` of `dkp-enum.h`. -/
inductive DkpDeviceTechnology where
  | unknown | lithium_ion | lithium_polymer | lithium_iron_phosphate
  | lead_acid | nickel_cadmium | nickel_metal_hydride
  deriving DecidableEq

/-- The `DkpObject` of `dkp-object.h`: the snapshot of one device.  The times to
empty and to full are `gint64`, the other quantities `gdouble`. -/
structure DkpObject where
  update_time : Int
  vendor : String
  model : String
  serial : String
  native_path : String
  power_supply : Bool
  online : Int
  is_present : Bool
  is_rechargeable : Bool
  type : DkpDeviceType
  state : DkpDeviceState
  technology : DkpDeviceTechnology
  capacity : Dbl
  energy : ℚ
  energy_full : ℚ
  energy_full_design : ℚ
  energy_rate : ℚ
  time_to_empty : Int
  time_to_full : Int
  percentage : Dbl
  deriving DecidableEq

/-- One call of the `dkp_history_set_*` family at the end of a battery refresh. -/
structure HistorySample where
  state : DkpDeviceState
  charge : Dbl
  rate : ℚ
  time_full : Int
  time_empty : Int
  deriving DecidableEq

/-- The `DkpSupplyPrivate` structure; `history` lists the samples handed to the
history object, oldest first, and `energy_old_timespec` is the `tv_sec` field. -/
structure DkpSupplyPrivate where
  history : List HistorySample
  poll_timer_id : Nat
  has_coldplug_values : Bool
  energy_old : ℚ
  energy_old_timespec : Int
  deriving DecidableEq

/-- A `DkpSupply`: the device snapshot and the private data. -/
structure DkpSupply where
  obj : DkpObject
  priv : DkpSupplyPrivate
  deriving DecidableEq

/-- What one battery refresh reads from outside: the sysfs attributes under the
native path (`sysfs_get_bool`, `sysfs_get_string`, `sysfs_get_double`; a missing
attribute reads as false, empty or zero, and a numeric attribute as a finite
number) and the clock (`g_get_current_time`, seconds) at the two places where
the refresh asks for it: in `dkp_supply_calculate_rate` and when the energy
sample is kept. -/
structure Sysfs where
  present : Bool
  technology : String
  manufacturer : String
  model_name : String
  serial_number : String
  energy_full : ℚ
  energy_full_design : ℚ
  status : String
  energy_avg : ℚ
  energy_now : ℚ
  current_now : ℚ
  clock_rate : Int
  clock_sample : Int

/-- The helpers of other files of the repository that the battery code calls:
`dkp_object_clear` (`dkp-object.c`) and `dkp_acpi_to_device_technology`
(`dkp-enum.c`). -/
structure Helpers where
  dkp_object_clear : DkpObject → DkpObject
  dkp_acpi_to_device_technology : String → DkpDeviceTechnology

/-! ## `dkp-supply.c`: operations -/

/-- The function `dkp_supply_reset_values`. -/
def dkp_supply_reset_values (h : Helpers) (supply : DkpSupply) : DkpSupply :=
  let type := supply.obj.type
  let native_path := supply.obj.native_path
  let priv := { supply.priv with
    has_coldplug_values := false, energy_old := -1, energy_old_timespec := 0 }
  let obj := h.dkp_object_clear supply.obj
  { obj := { obj with type := type, native_path := native_path }, priv := priv }

/-- The function `dkp_supply_get_on_battery`: `none` when it returns `FALSE`
(nothing is stored through `on_battery`), `some b` when it returns `TRUE`
after storing `b`. -/
def dkp_supply_get_on_battery (obj : DkpObject) : Option Bool :=
  if obj.type ≠ DkpDeviceType.battery then none
  else if !obj.is_present then none
  else some (decide (obj.state = DkpDeviceState.discharging))

/-- The function `dkp_supply_get_low_battery`: `none` when it returns `FALSE`
(nothing is stored through `low_battery`), `some b` when it returns `TRUE`
after storing `b`. -/
def dkp_supply_get_low_battery (obj : DkpObject) : Option Bool :=
  match dkp_supply_get_on_battery obj with
  | none => none
  | some on_battery =>
    if !on_battery then some false
    else some (obj.percentage.ltQ 10)

/-- The function `dkp_supply_calculate_rate`, in exact arithmetic; `now` is the
`tv_sec` of `g_get_current_time`, and the elapsed time is a `guint`.  The
function with the rounding of doubles left open is
`dkp_supply_calculate_rate_double`. -/
def dkp_supply_calculate_rate (now : Int) (supply : DkpSupply) : DkpSupply :=
  if supply.obj.energy < 0 then supply
  else if supply.priv.energy_old < 0 then supply
  else if supply.priv.energy_old = supply.obj.energy then supply
  else
    let time : Int := (now - supply.priv.energy_old_timespec) % 4294967296
    if time = 0 then supply
    else
      let energy := supply.priv.energy_old - supply.obj.energy
      if energy < 1 / 10 then supply
      else { supply with obj := { supply.obj with energy_rate := energy * 3600 / time } }

/-- The status text of the kernel mapped to a state, as in
`dkp_supply_refresh_battery`. -/
def status_to_state (status : String) : DkpDeviceState :=
  if strcasecmp_eq status "charging" then DkpDeviceState.charging
  else if strcasecmp_eq status "discharging" then DkpDeviceState.discharging
  else if strcasecmp_eq status "full" then DkpDeviceState.fully_charged
  else if strcasecmp_eq status "empty" then DkpDeviceState.empty
  else DkpDeviceState.unknown

/-- The block `if (!supply->priv->has_coldplug_values) { ... }` of
`dkp_supply_refresh_battery`. -/
def coldplug_values (h : Helpers) (r : Sysfs) (supply : DkpSupply) : DkpSupply :=
  let energy_full := r.energy_full / 1000000
  let energy_full_design := r.energy_full_design / 1000000
  -- the last full cannot be bigger than the design
  let energy_full := if energy_full > energy_full_design then energy_full_design else energy_full
  -- calculate how broken our battery is
  let capacity := ((Dbl.div energy_full_design energy_full).mulPos 100).clamp_0_100
  { obj := { supply.obj with
      power_supply := true
      technology := h.dkp_acpi_to_device_technology (g_strstrip r.technology)
      vendor := g_strstrip r.manufacturer
      model := g_strstrip r.model_name
      serial := g_strstrip r.serial_number
      is_rechargeable := true
      energy_full := energy_full
      energy_full_design := energy_full_design
      capacity := capacity }
    priv := { supply.priv with has_coldplug_values := true } }

/-- The code at the label `out:` of `dkp_supply_refresh_battery`: the current
values go to the history object. -/
def save_history (supply : DkpSupply) : DkpSupply :=
  { supply with priv := { supply.priv with history := supply.priv.history ++
      [{ state := supply.obj.state, charge := supply.obj.percentage,
         rate := supply.obj.energy_rate, time_full := supply.obj.time_to_full,
         time_empty := supply.obj.time_to_empty }] } }

/-- Lines 268 to 290 of `dkp_supply_refresh_battery`: the current charge, the
correction of `energy_full`, and the rate reported by the hardware. -/
def read_charge (r : Sysfs) (supply : DkpSupply) : DkpSupply :=
  -- get the current charge
  let energy := r.energy_avg / 1000000
  let energy := if energy = 0 then r.energy_now / 1000000 else energy
  -- some batteries do not update the last_full attribute
  let energy_full := if energy > supply.obj.energy_full then energy else supply.obj.energy_full
  let energy_rate := |r.current_now / 1000000|
  -- the special value Ones of ACPI
  let energy_rate := if energy_rate = 65535 then -1 else energy_rate
  -- sanity check to less than 100W
  let energy_rate := if energy_rate > 100 * 1000 then -1 else energy_rate
  { supply with obj := { supply.obj with
      energy := energy, energy_full := energy_full, energy_rate := energy_rate } }

/-- Lines 297 to 329 of `dkp_supply_refresh_battery`: percentage, remaining
times, the sample kept for the next rate calculation, and the new state.  The
quotients are exact: where the exact time is a whole number of seconds that the
rounded quotient of the code misses from below, the code stores one second less. -/
def derive_values (state : DkpDeviceState) (clock_sample : Int) (supply : DkpSupply) :
    DkpSupply :=
  let obj := supply.obj
  -- get a precise percentage
  let percentage := (Dbl.div (100 * obj.energy) obj.energy_full).clamp_0_100
  -- calculate a quick and dirty time remaining value
  let times : Int × Int :=
    if obj.energy_rate > 0 then
      if state = DkpDeviceState.discharging then
        (double_to_gint64 (3600 * (obj.energy / obj.energy_rate)), -1)
      else if state = DkpDeviceState.charging then
        (-1, double_to_gint64 (3600 * ((obj.energy_full - obj.energy) / obj.energy_rate)))
      else (-1, -1)
    else (-1, -1)
  let time_to_empty := if times.1 > 100 * 60 * 60 then -1 else times.1
  let time_to_full := if times.2 > 100 * 60 * 60 then -1 else times.2
  -- set the old status; it is dropped when the state changed
  let energy_old := if obj.state ≠ state then -1 else obj.energy
  { obj := { obj with
      percentage := percentage
      time_to_empty := time_to_empty
      time_to_full := time_to_full
      state := state }
    priv := { supply.priv with
      energy_old := energy_old
      energy_old_timespec := clock_sample } }

/-- The part of `dkp_supply_refresh_battery` between the coldplug block and the
label `out:` (lines 254 to 329), run when the battery is present. -/
def refresh_present (r : Sysfs) (supply : DkpSupply) : DkpSupply :=
  let state := status_to_state (g_strstrip r.status)
  let supply := read_charge r supply
  -- the hardware reporting failed: try to calculate the rate
  let supply :=
    if supply.obj.energy_rate < 0 then dkp_supply_calculate_rate r.clock_rate supply else supply
  derive_values state r.clock_sample supply

/-- The function `dkp_supply_refresh_battery` (its return value is always `TRUE`). -/
def dkp_supply_refresh_battery (h : Helpers) (r : Sysfs) (supply : DkpSupply) : DkpSupply :=
  let supply := { supply with obj := { supply.obj with is_present := r.present } }
  if !supply.obj.is_present then
    let supply := dkp_supply_reset_values h supply
    save_history { supply with obj := { supply.obj with type := DkpDeviceType.battery } }
  else
    let supply := if !supply.priv.has_coldplug_values then coldplug_values h r supply else supply
    save_history (refresh_present r supply)

/-! ## Example inputs for the battery -/

/-- A cleared snapshot in which every number is the sentinel `-1`. -/
def cleared_object : DkpObject :=
  { update_time := 0, vendor := "", model := "", serial := "", native_path := "",
    power_supply := false, online := 0, is_present := false, is_rechargeable := false,
    type := DkpDeviceType.unknown, state := DkpDeviceState.unknown,
    technology := DkpDeviceTechnology.unknown, capacity := Dbl.fin (-1),
    energy := -1, energy_full := -1, energy_full_design := -1, energy_rate := -1,
    time_to_empty := -1, time_to_full := -1, percentage := Dbl.fin (-1) }

/-- Helpers for the examples: clearing gives `cleared_object`, and every
technology text maps to `unknown`. -/
def example_helpers : Helpers :=
  { dkp_object_clear := fun _ => cleared_object
    dkp_acpi_to_device_technology := fun _ => DkpDeviceTechnology.unknown }

/-- A battery device before its first refresh: a cleared snapshot of type
battery at `/sys/class/power_supply/BAT0`, no coldplug values yet. -/
def fresh_battery : DkpSupply :=
  { obj := { cleared_object with
      type := DkpDeviceType.battery, native_path := "/sys/class/power_supply/BAT0" }
    priv := { history := [], poll_timer_id := 0, has_coldplug_values := false,
              energy_old := -1, energy_old_timespec := 0 } }

/-- The readings of the scenario: present, status `Discharging`, `energy_avg`
zero, `energy_now` 40 Wh, `energy_full` 50 Wh, `current_now` 10,000,000; the
design energy and the manufacturer are left open. -/
def scenario_readings (design : ℚ) (manufacturer : String) : Sysfs :=
  { present := true
    technology := "Li-ion"
    manufacturer := manufacturer
    model_name := "DELL XX"
    serial_number := "1234"
    energy_full := 50000000
    energy_full_design := design
    status := "Discharging"
    energy_avg := 0
    energy_now := 40000000
    current_now := 10000000
    clock_rate := 1000
    clock_sample := 1000 }

/-- The readings of a bay whose battery has been taken out: `present` reads
false and every other attribute is missing. -/
def absent_readings : Sysfs :=
  { present := false
    technology := ""
    manufacturer := ""
    model_name := ""
    serial_number := ""
    energy_full := 0
    energy_full_design := 0
    status := ""
    energy_avg := 0
    energy_now := 0
    current_now := 0
    clock_rate := 2000
    clock_sample := 2000 }

/-- The readings of a present battery that exposes none of the `energy_*`
attributes (they all read as zero), for instance one that reports `charge_*`. -/
def no_energy_readings : Sysfs :=
  { present := true
    technology := "Li-ion"
    manufacturer := "ACME"
    model_name := "B1"
    serial_number := "1"
    energy_full := 0
    energy_full_design := 0
    status := "Discharging"
    energy_avg := 0
    energy_now := 0
    current_now := 0
    clock_rate := 1000
    clock_sample := 1000 }

/-- A sequence of battery refreshes, one per element of `rs`, oldest first. -/
def refresh_sequence (h : Helpers) (rs : List Sysfs) (supply : DkpSupply) : DkpSupply :=
  rs.foldl (fun s r => dkp_supply_refresh_battery h r s) supply

/-- A line-power device (an AC adapter), online. -/
def line_power_object : DkpObject :=
  { cleared_object with
    type := DkpDeviceType.line_power, native_path := "/sys/class/power_supply/AC",
    power_supply := true, online := 1 }

/-- The formula of the on-battery query: battery, present and discharging. -/
def on_battery_formula (obj : DkpObject) : Bool :=
  decide (obj.type = DkpDeviceType.battery) && obj.is_present
    && decide (obj.state = DkpDeviceState.discharging)

/-- The formula of the low-battery query: on battery and below ten percent. -/
def low_battery_formula (obj : DkpObject) : Bool :=
  on_battery_formula obj && obj.percentage.ltQ 10

/-! ## `up-kbd-backlight.c`: text conversions of the C library and GLib -/

/-- The character of a decimal digit. -/
def digit_char (d : Nat) : Char :=
  match d with
  | 0 => '0' | 1 => '1' | 2 => '2' | 3 => '3' | 4 => '4'
  | 5 => '5' | 6 => '6' | 7 => '7' | 8 => '8' | _ => '9'

/-- The value of a decimal digit character, `none` for any other character. -/
def digit_value (c : Char) : Option Nat :=
  if c = '0' then some 0 else if c = '1' then some 1 else if c = '2' then some 2
  else if c = '3' then some 3 else if c = '4' then some 4 else if c = '5' then some 5
  else if c = '6' then some 6 else if c = '7' then some 7 else if c = '8' then some 8
  else if c = '9' then some 9 else none

/-- The decimal digits of `n`, most significant first; `fuel` bounds the number
of digits and `n + 1` is always enough. -/
def decimal_digits : Nat → Nat → List Char
  | 0, _ => []
  | fuel + 1, n =>
    if n < 10 then [digit_char n]
    else decimal_digits fuel (n / 10) ++ [digit_char (n % 10)]

/-- The text that `g_strdup_printf ("%i", value)` produces. -/
def printf_i (value : Int) : List Char :=
  if value < 0 then '-' :: decimal_digits (value.natAbs + 1) value.natAbs
  else decimal_digits (value.natAbs + 1) value.natAbs

/-- The number denoted by the longest run of decimal digits at the start of the
text, on top of the digits `acc` already read. -/
def digits_value (acc : Nat) : List Char → Nat
  | [] => acc
  | c :: cs =>
    match digit_value c with
    | some d => digits_value (10 * acc + d) cs
    | none => acc

/-- The text without an optional leading sign. -/
def skip_sign (s : List Char) : List Char :=
  match s with
  | c :: t => if c = '-' ∨ c = '+' then t else s
  | [] => s

/-- Whether the text starts with a decimal digit. -/
def starts_with_digit (s : List Char) : Bool :=
  match s with
  | c :: _ => (digit_value c).isSome
  | [] => false

/-- The `g_ascii_strtoll (buf, &end, 10)` of GLib: leading white space, an
optional sign, then decimal digits; the result saturates at the bounds of
`gint64`.  The second component is `end != buf`, a conversion took place. -/
def g_ascii_strtoll (buf : List Char) : Int × Bool :=
  let s := buf.dropWhile ISSPACE
  let negative := decide (s.head? = some '-')
  let s := skip_sign s
  if starts_with_digit s then
    let n : Int := digits_value 0 s
    (if negative then max (-n) (-9223372036854775808) else min n 9223372036854775807, true)
  else (0, false)

/-- The `g_ascii_strtoull (buf, &end, 10)` of GLib: as `g_ascii_strtoll`, with a
`guint64` result: digits beyond the maximum of `guint64` give that maximum
(with or without a sign), and a number in range is negated modulo `2^64` after a
minus sign. -/
def g_ascii_strtoull (buf : List Char) : Nat × Bool :=
  let s := buf.dropWhile ISSPACE
  let negative := decide (s.head? = some '-')
  let s := skip_sign s
  if starts_with_digit s then
    let n : Nat := digits_value 0 s
    (if 18446744073709551615 < n then 18446744073709551615
     else if negative then (18446744073709551616 - n) % 18446744073709551616 else n, true)
  else (0, false)

/-- The conversion of a `guint64` to `gint`: the low 32 bits, as a signed number. -/
def guint64_to_gint (n : Nat) : Int :=
  if n % 4294967296 < 2147483648 then (n % 4294967296 : Nat)
  else ((n % 4294967296 : Nat) : Int) - 4294967296

/-- The macro `CLAMP (x, low, high)` of GLib. -/
def CLAMP (x low high : Int) : Int :=
  if x > high then high else if x < low then low else x

/-- The test `g_strstr_len (haystack, -1, needle) != NULL`. -/
def g_strstr_found (haystack needle : List Char) : Bool :=
  haystack.tails.any (fun t => needle.isPrefixOf t)

/-! ## `up-kbd-backlight.c`: data model and operations -/

/-- The `UpKbdBacklightDevicePrivate` structure (the channel of hardware changes
is represented by its descriptor). -/
structure UpKbdBacklightDevice where
  name : String
  fd : Int
  fd_hw_changed : Int
  max_brightness : Int
  deriving DecidableEq

/-- The `UpKbdBacklightPrivate` structure. -/
structure UpKbdBacklight where
  devices : List UpKbdBacklightDevice
  max_brightness : Int
  deriving DecidableEq

/-- The errors of kind `UP_DAEMON_ERROR_GENERAL` that the backlight methods
return, one per message text. -/
inductive KbdError where
  | reading_brightness (device : String)
  | different_brightnesses
  | different_maximum_brightnesses
  | writing_brightness (value : Int) (device : String)
  deriving DecidableEq

/-- A reply to a method invocation of the backlight object. -/
inductive KbdReply where
  | return_error (e : KbdError)
  | complete_get_brightness (value : Int)
  | complete_get_max_brightness (value : Int)
  | complete_set_brightness
  deriving DecidableEq

/-- The two signals that `up_kbd_backlight_emit_change` emits. -/
inductive KbdSignal where
  | brightness_changed (value : Int)
  | brightness_changed_with_source (value : Int) (source : String)
  deriving DecidableEq

/-- The kernel side of the brightness attributes: `read fd` is the text that a
`read` from the start of the descriptor delivers (empty when the `read` fails or
delivers nothing) and `write fd text` is the return value of `write`. -/
structure LedFiles where
  read : Int → List Char
  write : Int → List Char → Int

/-- The function `up_kbd_backlight_emit_change`. -/
def up_kbd_backlight_emit_change (value : Int) (source : String) : List KbdSignal :=
  [KbdSignal.brightness_changed value, KbdSignal.brightness_changed_with_source value source]

/-- The function `up_kbd_backlight_device_brightness_read`; `data` is what the
`read` of the descriptor delivers, of which at most 15 bytes fit the buffer. -/
def up_kbd_backlight_device_brightness_read (device : UpKbdBacklightDevice) (fd : Int)
    (data : List Char) : Int :=
  if fd < 0 then -1
  else
    let buf := data.take 15
    if buf.length > 0 then
      let brightness := (g_ascii_strtoll buf).1
      if brightness < 0 ∨ brightness > device.max_brightness
          ∨ (g_ascii_strtoll buf).2 = false then -1
      else brightness
    else -1

/-- The outcome of `up_kbd_backlight_device_brightness_write`: the return value
and the text handed to `write`, if the function got that far. -/
structure WriteOutcome where
  ret : Bool
  text : Option (List Char)
  deriving DecidableEq

/-- The function `up_kbd_backlight_device_brightness_write`. -/
def up_kbd_backlight_device_brightness_write (files : LedFiles)
    (device : UpKbdBacklightDevice) (value : Int) : WriteOutcome :=
  if device.fd < 0 then { ret := false, text := none }
  else
    -- limit to between 0 and max
    let value := CLAMP value 0 device.max_brightness
    let text := printf_i value
    let length : Int := text.length
    let retval := files.write device.fd text
    if retval ≠ length then { ret := false, text := some text }
    else { ret := true, text := some text }

/-- What one call of `up_kbd_backlight_set_brightness` does: the text written to
each device (by name, in the order of the device array), the replies to the
invocation, and the signals emitted. -/
structure SetBrightnessEffects where
  writes : List (String × Option (List Char))
  replies : List KbdReply
  signals : List KbdSignal
  deriving DecidableEq

/-- The loop of `up_kbd_backlight_set_brightness` over the devices. -/
def set_brightness_loop (files : LedFiles) (value : Int) :
    List UpKbdBacklightDevice → List (String × Option (List Char)) × List KbdReply
  | [] => ([], [])
  | device :: rest =>
    let outcome := up_kbd_backlight_device_brightness_write files device value
    let tail := set_brightness_loop files value rest
    ((device.name, outcome.text) :: tail.1,
     (if outcome.ret then [] else
        [KbdReply.return_error (KbdError.writing_brightness value device.name)]) ++ tail.2)

/-- The function `up_kbd_backlight_set_brightness`. -/
def up_kbd_backlight_set_brightness (files : LedFiles) (kbd_backlight : UpKbdBacklight)
    (value : Int) : SetBrightnessEffects :=
  let loop := set_brightness_loop files value kbd_backlight.devices
  { writes := loop.1
    replies := loop.2 ++ [KbdReply.complete_set_brightness]
    signals := up_kbd_backlight_emit_change value "external" }

/-- The function `up_kbd_backlight_get_max_brightness`. -/
def up_kbd_backlight_get_max_brightness (kbd_backlight : UpKbdBacklight) : KbdReply :=
  if kbd_backlight.max_brightness < 0 then
    KbdReply.return_error KbdError.different_maximum_brightnesses
  else KbdReply.complete_get_max_brightness kbd_backlight.max_brightness

/-- One entry of `/sys/class/leds` as `up_kbd_backlight_find` sees it: the file
name, the contents of `max_brightness` (`none` when `g_file_get_contents`
fails), and the descriptors that the two `open` calls return. -/
structure LedEntry where
  filename : String
  max_brightness : Option (List Char)
  fd : Int
  fd_hw_changed : Int

/-- The state of the loop of `up_kbd_backlight_find`. -/
structure FindState where
  kbd_backlight : UpKbdBacklight
  found : Bool
  deriving DecidableEq

/-- The body of the loop of `up_kbd_backlight_find` for one entry whose name
contains `kbd_backlight`.  The second component tells whether the loop goes on
(`false` stands for `goto out`).  The device is in the array from the start, so
it stays there, as far as it was filled in, when the body leaves early. -/
def find_register (files : LedFiles) (st : FindState) (e : LedEntry) : FindState × Bool :=
  let device : UpKbdBacklightDevice :=
    { name := e.filename, fd := 0, fd_hw_changed := 0, max_brightness := 0 }
  let kbd := st.kbd_backlight
  match e.max_brightness with
  | none =>
    ({ kbd_backlight := { kbd with devices := kbd.devices ++ [device] }, found := false }, false)
  | some buf_max =>
    let device := { device with max_brightness := guint64_to_gint (g_ascii_strtoull buf_max).1 }
    if device.max_brightness = 0 ∧ (g_ascii_strtoull buf_max).2 = false then
      ({ kbd_backlight := { kbd with devices := kbd.devices ++ [device] }, found := false },
        false)
    else
      let group := kbd.max_brightness
      let group := if group = 0 then device.max_brightness else group
      let group := if group ≠ device.max_brightness then -1 else group
      let device := { device with fd := e.fd }
      if up_kbd_backlight_device_brightness_read device device.fd (files.read device.fd) < 0 then
        ({ kbd_backlight := { devices := kbd.devices ++ [device], max_brightness := group },
           found := st.found }, false)
      else
        let device := { device with fd_hw_changed := e.fd_hw_changed }
        ({ kbd_backlight := { devices := kbd.devices ++ [device], max_brightness := group },
           found := true }, true)

/-- The loop of `up_kbd_backlight_find` over the directory entries.  The second
component tells whether the loop ran to its end. -/
def find_loop (files : LedFiles) : FindState → List LedEntry → FindState × Bool
  | st, [] => (st, true)
  | st, e :: rest =>
    if g_strstr_found e.filename.data "kbd_backlight".data then
      let step := find_register files st e
      if step.2 then find_loop files step.1 rest else (step.1, false)
    else find_loop files st rest

/-- The function `up_kbd_backlight_find`, on a backlight object as
`up_kbd_backlight_init` leaves it.  `collate a b` is the order of the collation
keys of two file names.  The sort only runs when the loop reached its end. -/
def up_kbd_backlight_find (files : LedFiles) (collate : String → String → Bool)
    (kbd_backlight : UpKbdBacklight) (dir : List LedEntry) : UpKbdBacklight × Bool :=
  let r := find_loop files { kbd_backlight := kbd_backlight, found := false } dir
  if r.2 then
    ({ r.1.kbd_backlight with
        devices := r.1.kbd_backlight.devices.mergeSort (fun a b => collate a.name b.name) },
      r.1.found)
  else (r.1.kbd_backlight, r.1.found)

/-- The backlight object as `g_object_new` and `up_kbd_backlight_init` leave it. -/
def up_kbd_backlight_new : UpKbdBacklight :=
  { devices := [], max_brightness := 0 }

/-! ## Example inputs for the backlight -/

/-- Brightness attributes of which every descriptor reads `0` and takes every
write in full. -/
def example_files : LedFiles :=
  { read := fun _ => ['0']
    write := fun _ text => text.length }

/-- A keyboard-backlight entry with the given name and `max_brightness` text. -/
def led_entry (filename : String) (max_brightness : String) (fd : Int) : LedEntry :=
  { filename := filename, max_brightness := some max_brightness.data, fd := fd,
    fd_hw_changed := -1 }

/-- Two keyboard-backlight devices with the maxima 100 and 255. -/
def leds_100_255 : List LedEntry :=
  [led_entry "a::kbd_backlight" "100\n" 5, led_entry "b::kbd_backlight" "255\n" 6]

/-- Two keyboard-backlight devices with the maxima 0 and 100. -/
def leds_0_100 : List LedEntry :=
  [led_entry "a::kbd_backlight" "0\n" 5, led_entry "b::kbd_backlight" "100\n" 6]

/-- Two keyboard-backlight devices with the maximum 100. -/
def leds_100_100 : List LedEntry :=
  [led_entry "a::kbd_backlight" "100\n" 5, led_entry "b::kbd_backlight" "100\n" 6]

/-- The order of file names used in the examples. -/
def example_collate (a b : String) : Bool :=
  decide (a ≤ b)

/-- The backlight group that `up_kbd_backlight_find` builds from `leds_100_100`. -/
def group_100 : UpKbdBacklight :=
  { devices :=
      [{ name := "a::kbd_backlight", fd := 5, fd_hw_changed := -1, max_brightness := 100 },
       { name := "b::kbd_backlight", fd := 6, fd_hw_changed := -1, max_brightness := 100 }]
    max_brightness := 100 }

/-- A device of maximum 255 on descriptor 5. -/
def example_device_255 : UpKbdBacklightDevice :=
  { name := "a::kbd_backlight", fd := 5, fd_hw_changed := -1, max_brightness := 255 }

/-- Brightness attributes that read as `100` and a newline and take every write
in full. -/
def example_files_100 : LedFiles :=
  { read := fun _ => ['1', '0', '0', '\n']
    write := fun _ text => text.length }

/-! ## `up-enumerator-udev.c`: data model -/

/-- A `GUdevDevice`: the properties that the enumerator asks for, and the parent
device if there is one.  A subsystem or device type may be missing (`NULL`). -/
inductive GUdevDevice where
  | root (sysfs_path : String) (subsystem : Option String) (name : String)
      (devtype : Option String)
  | child (sysfs_path : String) (subsystem : Option String) (name : String)
      (devtype : Option String) (parent : GUdevDevice)
  deriving DecidableEq

namespace GUdevDevice

/-- The function `g_udev_device_get_sysfs_path`. -/
def get_sysfs_path : GUdevDevice → String
  | root p _ _ _ => p
  | child p _ _ _ _ => p

/-- The function `g_udev_device_get_subsystem`. -/
def get_subsystem : GUdevDevice → Option String
  | root _ s _ _ => s
  | child _ s _ _ _ => s

/-- The function `g_udev_device_get_name`. -/
def get_name : GUdevDevice → String
  | root _ _ n _ => n
  | child _ _ n _ _ => n

/-- The function `g_udev_device_get_devtype`. -/
def get_devtype : GUdevDevice → Option String
  | root _ _ _ t => t
  | child _ _ _ t _ => t

/-- The function `g_udev_device_get_parent`. -/
def get_parent : GUdevDevice → Option GUdevDevice
  | root _ _ _ _ => none
  | child _ _ _ _ parent => some parent

end GUdevDevice

/-- The GObject types that `device_new` instantiates. -/
inductive UpDeviceType where
  | supply | wup | idevice | hid
  deriving DecidableEq

/-- An `UpDevice` as the enumerator sees it: its type, the native device it
wraps, and the construction property `ignore-system-percentage`. -/
structure UpDevice where
  type : UpDeviceType
  native : GUdevDevice
  ignore_system_percentage : Bool
  deriving DecidableEq

/-- What the tables of the enumerator hold: an `UpDevice`, or the `GUdevDevice`
itself when no `UpDevice` was made for it.  An object is identified by its
contents, so the comparison of two pointers is the comparison of two values. -/
inductive GObject where
  | up_device (d : UpDevice)
  | udev_device (d : GUdevDevice)
  deriving DecidableEq

/-- The macro `UP_IS_DEVICE`. -/
def UP_IS_DEVICE (obj : GObject) : Bool :=
  match obj with
  | GObject.up_device _ => true
  | GObject.udev_device _ => false

/-- The `_UpEnumeratorUdev` structure: the hash tables `known` (key to object)
and `siblings` (parent id to the array of objects below that parent).  A table
is a list of pairs with distinct keys. -/
structure UpEnumeratorUdev where
  known : List (String × GObject)
  siblings : List (String × List GObject)
  deriving DecidableEq

/-- What the handler does to the outside: the two signals of the enumerator and
the calls into the device objects. -/
inductive Effect where
  | device_added (d : UpDevice)
  | device_removed (d : UpDevice)
  | sibling_discovered (d : UpDevice) (sibling : GObject)
  | refresh_internal (d : UpDevice)
  deriving DecidableEq

/-- What the enumerator depends on outside of its file: whether the build has
`HAVE_IDEVICE`, whether the DMI product name starts with `MacBook`, and whether
`g_initable_new` of a device type succeeds on a native device. -/
structure Platform where
  have_idevice : Bool
  is_macbook : Bool
  initable_new : UpDeviceType → GUdevDevice → Bool

/-! ## `up-enumerator-udev.c`: hash tables and arrays of GLib -/

/-- The function `g_hash_table_lookup`. -/
def g_hash_table_lookup {α : Type} (table : List (String × α)) (key : String) : Option α :=
  match table with
  | [] => none
  | (k, v) :: rest => if k = key then some v else g_hash_table_lookup rest key

/-- The table without the key: `g_hash_table_steal_extended` and the removal
half of an insertion. -/
def g_hash_table_steal {α : Type} (table : List (String × α)) (key : String) :
    List (String × α) :=
  table.filter (fun e => decide (e.1 ≠ key))

/-- The function `g_hash_table_insert`: the value replaces the one held for the key. -/
def g_hash_table_insert {α : Type} (table : List (String × α)) (key : String) (value : α) :
    List (String × α) :=
  (key, value) :: g_hash_table_steal table key

/-- A change of the value held for a key that leaves the key where it is: the
effect on the table of changing, in place, an array that the table holds. -/
def hash_table_set_in_place {α : Type} (table : List (String × α)) (key : String) (value : α) :
    List (String × α) :=
  table.map (fun e => if e.1 = key then (e.1, value) else e)

/-- The function `g_ptr_array_remove_fast`: the first occurrence of the object
is overwritten by the last element of the array, which gets one shorter. -/
def g_ptr_array_remove_fast (array : List GObject) (obj : GObject) : List GObject :=
  match array with
  | [] => []
  | x :: rest =>
    if x = obj then
      match rest.getLast? with
      | none => []
      | some last => last :: rest.dropLast
    else x :: g_ptr_array_remove_fast rest obj

/-! ## `up-enumerator-udev.c`: operations -/

/-- The function `device_parent_id`. -/
def device_parent_id : GUdevDevice → Option String
  | GUdevDevice.root _ _ _ _ => none
  | GUdevDevice.child _ _ _ _ parent =>
    -- refusing using certain subsystems as parents
    if parent.get_subsystem = some "platform" then none
    -- continue walk if the parent is a "hid" or "input" device
    else if parent.get_subsystem = some "hid" ∨ parent.get_subsystem = some "input" then
      device_parent_id parent
    -- also skip over USB interfaces
    else if parent.get_subsystem = some "usb" ∧ parent.get_devtype = some "usb_interface" then
      device_parent_id parent
    else some parent.get_sysfs_path

/-- The call `g_initable_new (type, ...)` of `device_new`. -/
def g_initable_new (p : Platform) (type : UpDeviceType) (native : GUdevDevice)
    ( ignore_system_percentage : Bool) : Option UpDevice :=
  if p.initable_new type native then
    some { type := type, native := native, ignore_system_percentage := ignore_system_percentage }
  else none

/-- The function `device_new`. -/
def device_new (p : Platform) (native : GUdevDevice) : Option UpDevice :=
  let subsys := native.get_subsystem
  if subsys = some "power_supply" then
    g_initable_new p UpDeviceType.supply native p.is_macbook
  else if subsys = some "tty" then
    g_initable_new p UpDeviceType.wup native false
  else if subsys = some "usbmisc" then
    match (if p.have_idevice then g_initable_new p UpDeviceType.idevice native false else none) with
    | some device => some device
    | none => g_initable_new p UpDeviceType.hid native false
  else if subsys = some "input" then
    -- ignore, we only resolve them to see siblings
    none
  else none

/-- The key of a device in `known`: the sysfs path, or the name for a device of
the `power_supply` subsystem. -/
def device_key (device : GUdevDevice) : String :=
  if device.get_subsystem = some "power_supply" then device.get_name
  else device.get_sysfs_path

/-- The branch of `uevent_signal_handler_cb` for the action `remove`. -/
def uevent_remove (self : UpEnumeratorUdev) (device : GUdevDevice) :
    UpEnumeratorUdev × List Effect :=
  let key := device_key device
  match g_hash_table_lookup self.known key with
  | none => (self, [])
  | some obj =>
    let known := g_hash_table_steal self.known key
    -- remove from siblings table
    let siblings :=
      match device_parent_id device with
      | none => self.siblings
      | some parent_id =>
        match g_hash_table_lookup self.siblings parent_id with
        | none => self.siblings
        | some devices =>
          hash_table_set_in_place self.siblings parent_id (g_ptr_array_remove_fast devices obj)
    ({ known := known, siblings := siblings },
      match obj with
      | GObject.up_device d => [Effect.device_removed d]
      | GObject.udev_device _ => [])

/-- The sibling events that the loop over the array of siblings fires for the
new object `obj`, which is `up_dev` when an `UpDevice` was made. -/
def sibling_events (up_dev : Option UpDevice) (obj : GObject) : List GObject → List Effect
  | [] => []
  | sibling :: rest =>
    (match up_dev with
      | some d => [Effect.sibling_discovered d sibling]
      | none => [])
    ++ (match sibling with
      | GObject.up_device s => [Effect.sibling_discovered s obj]
      | GObject.udev_device _ => [])
    ++ sibling_events up_dev obj rest

/-- The branch `if (!obj)` of `uevent_signal_handler_cb`: a device that is not
in `known` is made, stored, announced to its siblings and to the subscribers. -/
def uevent_add_new (p : Platform) (self : UpEnumeratorUdev) (device : GUdevDevice) :
    UpEnumeratorUdev × List Effect :=
  let up_dev := device_new p device
  let obj :=
    match up_dev with
    | some d => GObject.up_device d
    | none => GObject.udev_device device
  let known := g_hash_table_insert self.known (device_key device) obj
  let added :=
    match up_dev with
    | some d => [Effect.device_added d]
    | none => []
  match device_parent_id device with
  | none => ({ known := known, siblings := self.siblings }, added)
  | some parent_id =>
    match g_hash_table_lookup self.siblings parent_id with
    | none =>
      -- a new array, with the object alone, goes into the table
      ({ known := known, siblings := g_hash_table_insert self.siblings parent_id [obj] }, added)
    | some devices =>
      ({ known := known
         siblings := hash_table_set_in_place self.siblings parent_id (devices ++ [obj]) },
        sibling_events up_dev obj devices ++ added)

/-- The function `uevent_signal_handler_cb`: the new state of the enumerator and
what the call did to the outside, in order. -/
def uevent_signal_handler_cb (p : Platform) (self : UpEnumeratorUdev) (action : String)
    (device : GUdevDevice) : UpEnumeratorUdev × List Effect :=
  if action = "change" ∨ action = "add" then
    match g_hash_table_lookup self.known (device_key device) with
    | some (GObject.up_device d) =>
      if action = "add" ∧ device.get_sysfs_path ≠ d.native.get_sysfs_path then
        -- the stale object is removed first, then the device is added as new
        let removed := uevent_remove self device
        let added := uevent_add_new p removed.1 device
        (added.1, removed.2 ++ added.2)
      else (self, [Effect.refresh_internal d])
    | some (GObject.udev_device _) => (self, [])
    | none => uevent_add_new p self device
  else if action = "remove" then uevent_remove self device
  else (self, [])

/-- The enumerator as `up_enumerator_udev_init` leaves it. -/
def up_enumerator_udev_init : UpEnumeratorUdev :=
  { known := [], siblings := [] }

/-- The number of `device-added` signals among the effects. -/
def count_device_added (effects : List Effect) : Nat :=
  effects.countP (fun e => match e with
    | Effect.device_added _ => true
    | _ => false)

/-- The `device-added` and `device-removed` signals among the effects, in order. -/
def signals_of (effects : List Effect) : List Effect :=
  effects.filter (fun e => match e with
    | Effect.device_added _ => true
    | Effect.device_removed _ => true
    | _ => false)

/-! ## Example inputs for the enumerator -/

/-- A platform on which every `g_initable_new` succeeds. -/
def example_platform : Platform :=
  { have_idevice := false, is_macbook := false, initable_new := fun _ _ => true }

/-- The battery `BAT0` below an ACPI device. -/
def bat0 : GUdevDevice :=
  GUdevDevice.child "/sys/devices/LNXSYSTM:00/PNP0C0A:00/power_supply/BAT0"
    (some "power_supply") "BAT0" none
    (GUdevDevice.root "/sys/devices/LNXSYSTM:00/PNP0C0A:00" (some "acpi") "PNP0C0A:00" none)

/-- The enumerator after one `add` of `bat0` on an empty enumerator. -/
def enumerator_with_bat0 : UpEnumeratorUdev :=
  (uevent_signal_handler_cb example_platform up_enumerator_udev_init "add" bat0).1

/-- The battery `BAT0` again, at another sysfs path (the ACPI device was bound
anew) and with the same name. -/
def bat0_moved : GUdevDevice :=
  GUdevDevice.child "/sys/devices/LNXSYSTM:00/PNP0C0A:01/power_supply/BAT0"
    (some "power_supply") "BAT0" none
    (GUdevDevice.root "/sys/devices/LNXSYSTM:00/PNP0C0A:01" (some "acpi") "PNP0C0A:01" none)

/-- A platform on which `g_initable_new` succeeds for the device `bat0` and
fails for every other device. -/
def picky_platform : Platform :=
  { have_idevice := false, is_macbook := false
    initable_new := fun _ native => decide (native = bat0) }

/-- The `UpDevice` that `device_new` makes for a power supply on the example platform. -/
def supply_device (native : GUdevDevice) : UpDevice :=
  { type := UpDeviceType.supply, native := native, ignore_system_percentage := false }

/-! ## `dkp-supply.c`: the rate of the hardware, the refresh and the poll timer -/

/-- The rate that lines 279 to 290 of `dkp_supply_refresh_battery` store for a
reading of `current_now`: its absolute value in millionths, or `-1` when that
equals `0xffff` or exceeds `100*1000`. -/
def hardware_rate (current_now : ℚ) : ℚ :=
  let energy_rate := |current_now / 1000000|
  let energy_rate := if energy_rate = 65535 then -1 else energy_rate
  if energy_rate > 100 * 1000 then -1 else energy_rate

/-- The energy that lines 269 to 273 of `dkp_supply_refresh_battery` read: the
attribute `energy_avg`, or `energy_now` when that reads as zero, in millionths. -/
def energy_reading (r : Sysfs) : ℚ :=
  if r.energy_avg / 1000000 = 0 then r.energy_now / 1000000 else r.energy_avg / 1000000

/-- The function `dkp_supply_refresh_line_power`; `online` is what
`sysfs_get_int` reads from the attribute `online`. -/
def dkp_supply_refresh_line_power (online : Int) (supply : DkpSupply) : DkpSupply :=
  { supply with obj := { supply.obj with power_supply := true, online := online } }

/-- The timeout sources that the GLib main loop holds for one device: the ids of
the attached sources, and the id that the next source gets (ids are handed out
in increasing order and are never zero). -/
structure MainLoop where
  timeouts : List Nat
  next_id : Nat
  deriving DecidableEq

/-- The function `g_source_remove`. -/
def g_source_remove (loop : MainLoop) (id : Nat) : MainLoop :=
  { loop with timeouts := loop.timeouts.filter (fun t => decide (t ≠ id)) }

/-- The function `g_timeout_add_seconds`: the id of the new source and the loop
that holds it. -/
def g_timeout_add_seconds (loop : MainLoop) : Nat × MainLoop :=
  (loop.next_id, { timeouts := loop.timeouts ++ [loop.next_id], next_id := loop.next_id + 1 })

/-- A supply device together with the main loop that runs its poll timer. -/
structure SupplyDevice where
  supply : DkpSupply
  loop : MainLoop
  deriving DecidableEq

/-- What one call of `dkp_supply_refresh` reads from outside: the clock, the
attribute `online`, and what the battery refresh reads. -/
structure RefreshReadings where
  clock_update : Int
  online : Int
  battery : Sysfs

/-- The start of `dkp_supply_refresh`: a pending poll timer is removed and
forgotten, and the time of the update is stored. -/
def refresh_start (clock_update : Int) (d : SupplyDevice) : SupplyDevice :=
  let d : SupplyDevice :=
    if d.supply.priv.poll_timer_id > 0 then
      { supply := { d.supply with priv := { d.supply.priv with poll_timer_id := 0 } }
        loop := g_source_remove d.loop d.supply.priv.poll_timer_id }
    else d
  { d with supply := { d.supply with obj := { d.supply.obj with update_time := clock_update } } }

/-- The function `dkp_supply_refresh`: the return value and the device
afterwards, or `none` when `g_assert_not_reached` stops the program (the type
is neither line power nor battery). -/
def dkp_supply_refresh (h : Helpers) (r : RefreshReadings) (d : SupplyDevice) :
    Option (Bool × SupplyDevice) :=
  let d := refresh_start r.clock_update d
  match d.supply.obj.type with
  | DkpDeviceType.line_power =>
    some (true, { d with supply := dkp_supply_refresh_line_power r.online d.supply })
  | DkpDeviceType.battery =>
    let supply := dkp_supply_refresh_battery h r.battery d.supply
    -- set up a timer to poll if we are charging or discharging
    if supply.obj.state = DkpDeviceState.charging
        ∨ supply.obj.state = DkpDeviceState.discharging then
      let timer := g_timeout_add_seconds d.loop
      some (true, { supply := { supply with priv := { supply.priv with poll_timer_id := timer.1 } }
                    loop := timer.2 })
    else some (true, { supply := supply, loop := d.loop })
  | _ => none

/-- The sources that the main loop holds after the removal that
`dkp_supply_refresh` starts with. -/
def timeouts_after_cancel (d : SupplyDevice) : List Nat :=
  if d.supply.priv.poll_timer_id > 0 then
    (g_source_remove d.loop d.supply.priv.poll_timer_id).timeouts
  else d.loop.timeouts

/-- The test of `dkp_supply_refresh` for setting up the poll timer, on a
battery: the state is charging or discharging. -/
def wants_poll (supply : DkpSupply) : Prop :=
  supply.obj.type = DkpDeviceType.battery
    ∧ (supply.obj.state = DkpDeviceState.charging
      ∨ supply.obj.state = DkpDeviceState.discharging)

/-- The function `dkp_supply_poll_battery`, the callback of the poll timer: the
device afterwards and whether `dkp_device_emit_changed` was called.  The
callback returns `FALSE`. -/
def dkp_supply_poll_battery (h : Helpers) (r : RefreshReadings) (d : SupplyDevice) :
    Option (SupplyDevice × Bool) :=
  let d := { d with supply := { d.supply with priv := { d.supply.priv with poll_timer_id := 0 } } }
  match dkp_supply_refresh h r d with
  | none => none
  | some (ret, d) => some (d, ret)

/-- What happens to a supply device: a refresh asked for from outside, or the
timeout source `id` of the main loop coming due. -/
inductive SupplyEvent where
  | refresh (r : RefreshReadings)
  | timeout (id : Nat) (r : RefreshReadings)

/-- One event on a supply device.  A timeout source that is not attached does
not come due.  One that is attached runs `dkp_supply_poll_battery` and is then
destroyed by the main loop, because the callback returned `FALSE`. -/
def supply_event (h : Helpers) (d : SupplyDevice) : SupplyEvent → Option SupplyDevice
  | SupplyEvent.refresh r =>
    match dkp_supply_refresh h r d with
    | none => none
    | some (_, d) => some d
  | SupplyEvent.timeout id r =>
    if id ∈ d.loop.timeouts then
      match dkp_supply_poll_battery h r d with
      | none => none
      | some (d, _) => some { d with loop := g_source_remove d.loop id }
    else some d

/-- A sequence of events on a supply device, oldest first. -/
def supply_events (h : Helpers) : SupplyDevice → List SupplyEvent → Option SupplyDevice
  | d, [] => some d
  | d, e :: rest =>
    match supply_event h d e with
    | none => none
    | some d => supply_events h d rest

/-- The state of the poll timer that the supply code keeps: the main loop holds
the source `poll_timer_id` and no other when the id is not zero, and no source
when it is zero; the id is one the loop has handed out; the device is a
line-power device or a battery. -/
def TimerConsistent (d : SupplyDevice) : Prop :=
  d.loop.timeouts = (if d.supply.priv.poll_timer_id > 0 then [d.supply.priv.poll_timer_id] else [])
  ∧ d.supply.priv.poll_timer_id < d.loop.next_id
  ∧ (d.supply.obj.type = DkpDeviceType.line_power ∨ d.supply.obj.type = DkpDeviceType.battery)

/-- A poll timer is pending exactly when the device is a battery that is
charging or discharging. -/
def TimerAsState (d : SupplyDevice) : Prop :=
  d.loop.timeouts ≠ [] ↔ wants_poll d.supply

/-! ## Example inputs for the rate and the poll timer -/

/-- A battery snapshot whose previous energy sample (40 Wh, taken at second
1000) is below the current energy (41 Wh), with the rate unknown. -/
def rising_energy_sample : DkpSupply :=
  { obj := { fresh_battery.obj with energy := 41, energy_full := 50, energy_rate := -1 }
    priv := { fresh_battery.priv with
      has_coldplug_values := true, energy_old := 40, energy_old_timespec := 1000 } }

/-- The scenario readings with the given `current_now`. -/
def rate_readings (current_now : ℚ) : Sysfs :=
  { scenario_readings 60000000 "ACME" with current_now := current_now }

/-- Readings taken 30 seconds after the scenario readings: the status now reads
`Charging`, the energy is 39.5 Wh, and `current_now` is the value for which the
code takes the rate of the hardware as unknown. -/
def transition_readings : Sysfs :=
  { scenario_readings 60000000 "ACME" with
    status := "Charging"
    energy_now := 39500000
    current_now := 65535000000
    clock_rate := 1030
    clock_sample := 1030 }

/-- A battery device before its first refresh, with a main loop that holds no
timeout source. -/
def fresh_supply_device : SupplyDevice :=
  { supply := fresh_battery, loop := { timeouts := [], next_id := 1 } }

/-- The readings of a refresh at second 1000 with the scenario readings. -/
def scenario_refresh : RefreshReadings :=
  { clock_update := 1000, online := 0, battery := scenario_readings 60000000 "ACME" }

/-! ## `dkp-supply.c`: the rate calculation in double arithmetic -/

/-- The arithmetic of `gdouble` that `dkp_supply_calculate_rate` uses, with the
rounding left open: the difference, the product and the quotient of two doubles
as the machine computes them, and the double that the constant `0.1` denotes.
Of the rounding only this is used: the computed difference of `a` and `b` is
not positive when `a ≤ b`, and the constant is positive. -/
structure DoubleArith where
  sub : ℚ → ℚ → ℚ
  mul : ℚ → ℚ → ℚ
  div : ℚ → ℚ → ℚ
  tenth : ℚ
  sub_nonpos : ∀ a b : ℚ, a ≤ b → sub a b ≤ 0
  tenth_pos : 0 < tenth

/-- The arithmetic without rounding. -/
def exact_arith : DoubleArith :=
  { sub := fun a b => a - b
    mul := fun a b => a * b
    div := fun a b => a / b
    tenth := 1 / 10
    sub_nonpos := fun _ _ hab => sub_nonpos.mpr hab
    tenth_pos := by norm_num }

/-- The function `dkp_supply_calculate_rate` with the arithmetic of doubles as
the parameter `fl`: the difference `energy_old - obj->energy`, its comparison
with the constant `0.1`, and `energy * 3600 / time` are those of `fl`.  The
tests `< 0` and `==` of two doubles and the conversion of the `guint` to a
double are exact. -/
def dkp_supply_calculate_rate_double (fl : DoubleArith) (now : Int) (supply : DkpSupply) :
    DkpSupply :=
  if supply.obj.energy < 0 then supply
  else if supply.priv.energy_old < 0 then supply
  else if supply.priv.energy_old = supply.obj.energy then supply
  else
    let time : Int := (now - supply.priv.energy_old_timespec) % 4294967296
    if time = 0 then supply
    else
      let energy := fl.sub supply.priv.energy_old supply.obj.energy
      if energy < fl.tenth then supply
      else { supply with obj := { supply.obj with
        energy_rate := fl.div (fl.mul energy 3600) time } }

/-- A battery snapshot whose previous energy sample (41 Wh, taken at second
1000) is above the current energy (40 Wh), with the rate unknown. -/
def falling_energy_sample : DkpSupply :=
  { obj := { fresh_battery.obj with energy := 40, energy_full := 50, energy_rate := -1 }
    priv := { fresh_battery.priv with
      has_coldplug_values := true, energy_old := 41, energy_old_timespec := 1000 } }

/-! ## `up-kbd-backlight.c`: the aggregate read -/

/-- The loop of `up_kbd_backlight_get_brightness`: the brightness shared so far
(`-1` at the start) and the errors returned on the way. -/
def get_brightness_loop (files : LedFiles) :
    Int → List UpKbdBacklightDevice → Int × List KbdReply
  | univ_brightness, [] => (univ_brightness, [])
  | univ_brightness, device :: rest =>
    let curr_brightness :=
      up_kbd_backlight_device_brightness_read device device.fd (files.read device.fd)
    if curr_brightness < 0 then
      let tail := get_brightness_loop files univ_brightness rest
      (tail.1, KbdReply.return_error (KbdError.reading_brightness device.name) :: tail.2)
    else if univ_brightness < 0 then get_brightness_loop files curr_brightness rest
    else if univ_brightness ≠ curr_brightness then
      let tail := get_brightness_loop files univ_brightness rest
      (tail.1, KbdReply.return_error KbdError.different_brightnesses :: tail.2)
    else get_brightness_loop files univ_brightness rest

/-- The function `up_kbd_backlight_get_brightness`: the replies to the
invocation, in order. -/
def up_kbd_backlight_get_brightness (files : LedFiles) (kbd_backlight : UpKbdBacklight) :
    List KbdReply :=
  let loop := get_brightness_loop files (-1) kbd_backlight.devices
  loop.2 ++ [KbdReply.complete_get_brightness loop.1]

/-- Brightness attributes of which descriptor 5 reads `10` and every other one `20`. -/
def example_files_10_20 : LedFiles :=
  { read := fun fd => if fd = 5 then ['1', '0', '\n'] else ['2', '0', '\n']
    write := fun _ text => text.length }

/-! ## `up-enumerator-udev.c`: the sibling index and the ancestors -/

/-- Whether the object is held by some array of the sibling index. -/
def in_sibling_index (self : UpEnumeratorUdev) (obj : GObject) : Bool :=
  self.siblings.any (fun bucket => bucket.2.contains obj)

/-- The ancestors of a device, nearest first. -/
def ancestors : GUdevDevice → List GUdevDevice
  | GUdevDevice.root _ _ _ _ => []
  | GUdevDevice.child _ _ _ _ parent => parent :: ancestors parent

/-- A node that the walk to the parent id passes through: a `hid` or `input`
device, or a USB node of device type `usb_interface`. -/
def is_passed_through (d : GUdevDevice) : Bool :=
  decide (d.get_subsystem = some "hid") || decide (d.get_subsystem = some "input")
    || (decide (d.get_subsystem = some "usb") && decide (d.get_devtype = some "usb_interface"))

/-- The parent id in the words of the specification: the sysfs path of the
nearest ancestor that is not passed through; no id when there is no such
ancestor or when it is in the `platform` subsystem. -/
def nearest_ancestor_id (d : GUdevDevice) : Option String :=
  match (ancestors d).find? (fun a => !is_passed_through a) with
  | none => none
  | some a => if a.get_subsystem = some "platform" then none else some a.get_sysfs_path

/-- A battery of a wireless keyboard: a `power_supply` node below a `hid` node,
below a USB interface, below the USB device. -/
def keyboard_battery : GUdevDevice :=
  GUdevDevice.child "/sys/devices/pci0/usb1/1-2/1-2:1.0/0003:046D/power_supply/hidpp_battery_0"
    (some "power_supply") "hidpp_battery_0" none
    (GUdevDevice.child "/sys/devices/pci0/usb1/1-2/1-2:1.0/0003:046D" (some "hid")
      "0003:046D" none
      (GUdevDevice.child "/sys/devices/pci0/usb1/1-2/1-2:1.0" (some "usb") "1-2:1.0"
        (some "usb_interface")
        (GUdevDevice.child "/sys/devices/pci0/usb1/1-2" (some "usb") "1-2" (some "usb_device")
          (GUdevDevice.root "/sys/devices/pci0/usb1" (some "usb") "usb1" (some "usb_device")))))

/-! ## `up-enumerator-udev.c`: sequences of events -/

/-- One uevent as the handler receives it: the action, the device, and what the
platform does at that time (whether `g_initable_new` succeeds). -/
structure UEvent where
  platform : Platform
  action : String
  device : GUdevDevice

/-- A sequence of uevents handled one after the other, oldest first: the
enumerator afterwards and everything the calls did to the outside, in order. -/
def handle_events (self : UpEnumeratorUdev) : List UEvent → UpEnumeratorUdev × List Effect
  | [] => (self, [])
  | e :: rest =>
    let step := uevent_signal_handler_cb e.platform self e.action e.device
    let tail := handle_events step.1 rest
    (tail.1, step.2 ++ tail.2)

/-- The devices that a subscriber holds after one more effect: `device-added`
brings a device in and `device-removed` takes it out. -/
def announce (announced : List UpDevice) (e : Effect) : List UpDevice :=
  match e with
  | Effect.device_added d => d :: announced
  | Effect.device_removed d => announced.erase d
  | _ => announced

/-- The devices announced by `device-added` and not yet by `device-removed`. -/
def announced_devices (effects : List Effect) : List UpDevice :=
  effects.foldl announce []

/-- The classified device objects that the registry `known` holds. -/
def registered_devices (self : UpEnumeratorUdev) : List UpDevice :=
  self.known.filterMap (fun e =>
    match e.2 with
    | GObject.up_device d => some d
    | GObject.udev_device _ => none)

/-- The enumerator at the moment the handler calls `g_hash_table_insert` on
`known` (line 177), or `none` when the call does not get there: the insertion
happens when the key was not found, and after the remove made up for a stale
entry. -/
def state_at_insert (self : UpEnumeratorUdev) (action : String) (device : GUdevDevice) :
    Option UpEnumeratorUdev :=
  if action = "change" ∨ action = "add" then
    match g_hash_table_lookup self.known (device_key device) with
    | some (GObject.up_device d) =>
      if action = "add" ∧ device.get_sysfs_path ≠ d.native.get_sysfs_path then
        some (uevent_remove self device).1
      else none
    | some (GObject.udev_device _) => none
    | none => some self
  else none

/-- A receiver of a wireless keyboard: a `usbmisc` node below the USB interface
of the device that `keyboard_battery` belongs to. -/
def keyboard_receiver : GUdevDevice :=
  GUdevDevice.child "/sys/devices/pci0/usb1/1-2/1-2:1.0/usbmisc/hiddev0"
    (some "usbmisc") "hiddev0" none
    (GUdevDevice.child "/sys/devices/pci0/usb1/1-2/1-2:1.0" (some "usb") "1-2:1.0"
      (some "usb_interface")
      (GUdevDevice.child "/sys/devices/pci0/usb1/1-2" (some "usb") "1-2" (some "usb_device")
        (GUdevDevice.root "/sys/devices/pci0/usb1" (some "usb") "usb1" (some "usb_device"))))

/-- A sequence of events: the receiver and two batteries appear, `BAT0` comes
back at another path without a `remove`, and the keyboard battery goes away. -/
def example_events : List UEvent :=
  [{ platform := example_platform, action := "add", device := keyboard_receiver },
   { platform := example_platform, action := "add", device := bat0 },
   { platform := example_platform, action := "add", device := keyboard_battery },
   { platform := example_platform, action := "change", device := bat0 },
   { platform := example_platform, action := "add", device := bat0_moved },
   { platform := example_platform, action := "remove", device := keyboard_battery }]


/-! # Properties -/

/-! ## Battery: stage lemmas -/

theorem status_discharging : status_to_state "Discharging" = DkpDeviceState.discharging := by
  decide

theorem save_history_obj (s : DkpSupply) : (save_history s).obj = s.obj := rfl

theorem save_history_coldplug (s : DkpSupply) :
    (save_history s).priv.has_coldplug_values = s.priv.has_coldplug_values := rfl

theorem calculate_rate_frame (now : Int) (s : DkpSupply) :
    ∃ rate : ℚ, dkp_supply_calculate_rate now s =
      { s with obj := { s.obj with energy_rate := rate } } := by
  unfold dkp_supply_calculate_rate
  dsimp only
  split_ifs
  all_goals first | exact ⟨s.obj.energy_rate, rfl⟩ | exact ⟨_, rfl⟩

/-- The present path leaves the coldplug values and the coldplug flag alone. -/
theorem refresh_present_static (r : Sysfs) (s : DkpSupply) :
    (refresh_present r s).obj.capacity = s.obj.capacity
    ∧ (refresh_present r s).obj.technology = s.obj.technology
    ∧ (refresh_present r s).obj.vendor = s.obj.vendor
    ∧ (refresh_present r s).obj.model = s.obj.model
    ∧ (refresh_present r s).obj.serial = s.obj.serial
    ∧ (refresh_present r s).priv.has_coldplug_values = s.priv.has_coldplug_values := by
  unfold refresh_present
  dsimp only
  split_ifs
  · obtain ⟨rate, hr⟩ := calculate_rate_frame r.clock_rate (read_charge r s)
    rw [hr]
    exact ⟨rfl, rfl, rfl, rfl, rfl, rfl⟩
  · exact ⟨rfl, rfl, rfl, rfl, rfl, rfl⟩

/-- The percentage of the present path, from the values of `read_charge`. -/
theorem refresh_present_percentage (r : Sysfs) (s : DkpSupply) :
    (refresh_present r s).obj.percentage =
      (Dbl.div (100 * (read_charge r s).obj.energy)
        (read_charge r s).obj.energy_full).clamp_0_100 := by
  unfold refresh_present
  dsimp only
  split_ifs
  · obtain ⟨rate, hr⟩ := calculate_rate_frame r.clock_rate (read_charge r s)
    rw [hr]
    rfl
  · rfl

/-- The refresh of a present battery, unfolded. -/
theorem refresh_battery_present (h : Helpers) (r : Sysfs) (s : DkpSupply)
    (hpresent : r.present = true) :
    dkp_supply_refresh_battery h r s =
      save_history (refresh_present r
        (if s.priv.has_coldplug_values then
          { s with obj := { s.obj with is_present := true } }
         else coldplug_values h r { s with obj := { s.obj with is_present := true } })) := by
  unfold dkp_supply_refresh_battery
  simp only [hpresent]
  cases hc : s.priv.has_coldplug_values <;> simp

/-- The refresh of an absent battery, unfolded. -/
theorem refresh_battery_absent (h : Helpers) (r : Sysfs) (s : DkpSupply)
    (habsent : r.present = false) :
    dkp_supply_refresh_battery h r s =
      save_history
        { obj := { h.dkp_object_clear { s.obj with is_present := false } with
            type := DkpDeviceType.battery, native_path := s.obj.native_path }
          priv := { s.priv with
            has_coldplug_values := false, energy_old := -1, energy_old_timespec := 0 } } := by
  unfold dkp_supply_refresh_battery
  simp only [habsent]
  rfl

/-! ## Battery: the claims -/

/-- C1, counterexample.  With the scenario readings and a design energy of
45 Wh (below the 50 Wh read from `energy_full`), the first refresh of a battery
stores a percentage of 800/9 (about 88.9), not 80. -/
theorem scenario_percentage_design_45 :
    (dkp_supply_refresh_battery example_helpers (scenario_readings 45000000 "ACME")
        fresh_battery).obj.percentage = Dbl.fin (800 / 9)
    ∧ (dkp_supply_refresh_battery example_helpers (scenario_readings 45000000 "ACME")
        fresh_battery).obj.percentage ≠ Dbl.fin 80 := by
  have hp : (dkp_supply_refresh_battery example_helpers (scenario_readings 45000000 "ACME")
      fresh_battery).obj.percentage = Dbl.fin (800 / 9) := by
    rw [refresh_battery_present _ _ _ rfl, save_history_obj, refresh_present_percentage]
    have he : (read_charge (scenario_readings 45000000 "ACME")
        (if fresh_battery.priv.has_coldplug_values = true then
          { fresh_battery with obj := { fresh_battery.obj with is_present := true } }
         else coldplug_values example_helpers (scenario_readings 45000000 "ACME")
          { fresh_battery with obj := { fresh_battery.obj with is_present := true } })).obj.energy
        = 40 := by
      simp only [read_charge, scenario_readings]
      norm_num
    have hf : (read_charge (scenario_readings 45000000 "ACME")
        (if fresh_battery.priv.has_coldplug_values = true then
          { fresh_battery with obj := { fresh_battery.obj with is_present := true } }
         else coldplug_values example_helpers (scenario_readings 45000000 "ACME")
          { fresh_battery with obj := { fresh_battery.obj with is_present := true } })).obj.energy_full
        = 45 := by
      simp only [read_charge, scenario_readings, fresh_battery, coldplug_values]
      norm_num
    rw [he, hf]
    norm_num [Dbl.clamp_0_100, Dbl.div, Dbl.ltQ, Dbl.gtQ]
  refine ⟨hp, ?_⟩
  rw [hp]
  intro h
  injection h with h
  norm_num at h

/-- C1, amended.  For a battery that has no coldplug values yet and reads
present, status `Discharging`, `energy_avg` zero, `energy_now` 40,000,000,
`energy_full` 50,000,000, `current_now` 10,000,000 and an `energy_full_design`
of at least 50,000,000, one battery refresh leaves `energy_rate = 10`,
`percentage = 80`, `time_to_empty = 14400` and `time_to_full = -1`. -/
theorem scenario_discharging (h : Helpers) (r : Sysfs) (s : DkpSupply)
    (hcold : s.priv.has_coldplug_values = false)
    (hpresent : r.present = true)
    (hstatus : g_strstrip r.status = "Discharging")
    (havg : r.energy_avg = 0)
    (hnow : r.energy_now = 40000000)
    (hfull : r.energy_full = 50000000)
    (hdesign : 50000000 ≤ r.energy_full_design)
    (hcur : r.current_now = 10000000) :
    (dkp_supply_refresh_battery h r s).obj.energy_rate = 10
    ∧ (dkp_supply_refresh_battery h r s).obj.percentage = Dbl.fin 80
    ∧ (dkp_supply_refresh_battery h r s).obj.time_to_empty = 14400
    ∧ (dkp_supply_refresh_battery h r s).obj.time_to_full = -1 := by
  have h1 : ¬ ((50000000 : ℚ) / 1000000 > r.energy_full_design / 1000000) := by
    rw [gt_iff_lt, not_lt]
    exact div_le_div_of_nonneg_right hdesign (by norm_num)
  have habs : |(10000000 : ℚ) / 1000000| = 10 := by norm_num [abs_of_pos]
  rw [refresh_battery_present h r s hpresent, hcold]
  simp only [Bool.false_eq_true, if_false, save_history_obj]
  generalize hs1 : coldplug_values h r { s with obj := { s.obj with is_present := true } } = s1
  have hf1 : s1.obj.energy_full = 50 := by
    rw [← hs1]
    simp only [coldplug_values, hfull, if_neg h1]
    norm_num
  generalize hs2 : read_charge r s1 = s2
  have he2 : s2.obj.energy = 40 := by
    rw [← hs2]
    simp only [read_charge, havg, hnow]
    norm_num
  have hf2 : s2.obj.energy_full = 50 := by
    rw [← hs2]
    simp only [read_charge, havg, hnow, hf1]
    norm_num
  have hr2 : s2.obj.energy_rate = 10 := by
    rw [← hs2]
    simp only [read_charge, hcur, habs]
    norm_num
  have hstep : refresh_present r s1 = derive_values DkpDeviceState.discharging r.clock_sample s2 := by
    unfold refresh_present
    simp only [hstatus, status_discharging, hs2, hr2]
    norm_num
  rw [hstep]
  simp only [derive_values, he2, hf2, hr2]
  norm_num [Dbl.clamp_0_100, Dbl.div, Dbl.ltQ, Dbl.gtQ, double_to_gint64]

/-- C1, witness: the scenario with a design energy of 60 Wh. -/
theorem scenario_discharging_witness :
    (dkp_supply_refresh_battery example_helpers (scenario_readings 60000000 "ACME")
        fresh_battery).obj.energy_rate = 10
    ∧ (dkp_supply_refresh_battery example_helpers (scenario_readings 60000000 "ACME")
        fresh_battery).obj.percentage = Dbl.fin 80
    ∧ (dkp_supply_refresh_battery example_helpers (scenario_readings 60000000 "ACME")
        fresh_battery).obj.time_to_empty = 14400
    ∧ (dkp_supply_refresh_battery example_helpers (scenario_readings 60000000 "ACME")
        fresh_battery).obj.time_to_full = -1 :=
  scenario_discharging example_helpers (scenario_readings 60000000 "ACME") fresh_battery
    rfl rfl (by decide) rfl rfl rfl (by norm_num [scenario_readings]) rfl

/-- C5, the failing input.  A present battery whose `energy_full`, `energy_avg`
and `energy_now` all read zero gets the percentage `0.0 / 0.0`: not a number,
which both clamping tests let through. -/
theorem percentage_nan_when_no_energy :
    (dkp_supply_refresh_battery example_helpers no_energy_readings
        fresh_battery).obj.percentage = Dbl.nan
    ∧ ¬ ((dkp_supply_refresh_battery example_helpers no_energy_readings
        fresh_battery).obj.percentage).InRange 0 100 := by
  have hp : (dkp_supply_refresh_battery example_helpers no_energy_readings
      fresh_battery).obj.percentage = Dbl.nan := by
    rw [refresh_battery_present _ _ _ rfl, save_history_obj, refresh_present_percentage]
    have he : (read_charge no_energy_readings
        (if fresh_battery.priv.has_coldplug_values = true then
          { fresh_battery with obj := { fresh_battery.obj with is_present := true } }
         else coldplug_values example_helpers no_energy_readings
          { fresh_battery with obj := { fresh_battery.obj with is_present := true } })).obj.energy
        = 0 := by
      simp only [read_charge, no_energy_readings]
      norm_num
    have hf : (read_charge no_energy_readings
        (if fresh_battery.priv.has_coldplug_values = true then
          { fresh_battery with obj := { fresh_battery.obj with is_present := true } }
         else coldplug_values example_helpers no_energy_readings
          { fresh_battery with obj := { fresh_battery.obj with is_present := true } })).obj.energy_full
        = 0 := by
      simp only [read_charge, no_energy_readings, fresh_battery, coldplug_values]
      norm_num
    rw [he, hf]
    norm_num [Dbl.clamp_0_100, Dbl.div, Dbl.ltQ, Dbl.gtQ]
  refine ⟨hp, ?_⟩
  rw [hp]
  rintro ⟨q, hq, -⟩
  cases hq

/-- C3, counterexample.  A battery is coldplugged with manufacturer `ACME`; a
refresh then reads `present` as false and the next one reads a present battery
of manufacturer `OTHER`: the vendor of the snapshot is now `OTHER`, and the
coldplug flag was cleared in between. -/
theorem coldplug_reexecutes_after_absence :
    (dkp_supply_refresh_battery example_helpers (scenario_readings 60000000 "ACME")
        fresh_battery).obj.vendor = "ACME"
    ∧ (dkp_supply_refresh_battery example_helpers absent_readings
        (dkp_supply_refresh_battery example_helpers (scenario_readings 60000000 "ACME")
          fresh_battery)).priv.has_coldplug_values = false
    ∧ (refresh_sequence example_helpers [absent_readings, scenario_readings 60000000 "OTHER"]
        (dkp_supply_refresh_battery example_helpers (scenario_readings 60000000 "ACME")
          fresh_battery)).obj.vendor = "OTHER" := by
  refine ⟨?_, ?_, ?_⟩
  · rw [refresh_battery_present _ _ _ rfl, save_history_obj, (refresh_present_static _ _).2.2.1]
    decide
  · rw [refresh_battery_absent _ _ _ rfl]
    rfl
  · simp only [refresh_sequence, List.foldl]
    rw [refresh_battery_present _ _ _ rfl, save_history_obj, (refresh_present_static _ _).2.2.1,
      refresh_battery_absent _ _ _ rfl]
    decide

/-- C3, amended.  After the coldplug block has run, every sequence of battery
refreshes that all read `present` as true leaves capacity, technology, vendor,
model and serial as they were, and the coldplug flag set (the block does not run
again). -/
theorem coldplug_values_kept_while_present (h : Helpers) (rs : List Sysfs) (s : DkpSupply)
    (hcold : s.priv.has_coldplug_values = true)
    (hall : ∀ r ∈ rs, r.present = true) :
    (refresh_sequence h rs s).obj.capacity = s.obj.capacity
    ∧ (refresh_sequence h rs s).obj.technology = s.obj.technology
    ∧ (refresh_sequence h rs s).obj.vendor = s.obj.vendor
    ∧ (refresh_sequence h rs s).obj.model = s.obj.model
    ∧ (refresh_sequence h rs s).obj.serial = s.obj.serial
    ∧ (refresh_sequence h rs s).priv.has_coldplug_values = true := by
  induction rs generalizing s with
  | nil => exact ⟨rfl, rfl, rfl, rfl, rfl, hcold⟩
  | cons r rs ih =>
    have hr : r.present = true := hall r (List.mem_cons_self r rs)
    have hstep : dkp_supply_refresh_battery h r s =
        save_history (refresh_present r { s with obj := { s.obj with is_present := true } }) := by
      rw [refresh_battery_present h r s hr, hcold]
      rfl
    obtain ⟨s1, s2, s3, s4, s5, s6⟩ :=
      refresh_present_static r { s with obj := { s.obj with is_present := true } }
    have hcold1 : (dkp_supply_refresh_battery h r s).priv.has_coldplug_values = true := by
      rw [hstep, save_history_coldplug, s6]
      exact hcold
    obtain ⟨t1, t2, t3, t4, t5, t6⟩ :=
      ih (dkp_supply_refresh_battery h r s) hcold1
        (fun r' hr' => hall r' (List.mem_cons_of_mem r hr'))
    have hseq : refresh_sequence h (r :: rs) s
        = refresh_sequence h rs (dkp_supply_refresh_battery h r s) := rfl
    rw [hseq, t1, t2, t3, t4, t5, t6, hstep, save_history_obj, s1, s2, s3, s4, s5]
    exact ⟨rfl, rfl, rfl, rfl, rfl, rfl⟩

/-- C3, witness: two refreshes of a present battery after its coldplug. -/
theorem coldplug_values_kept_while_present_witness :
    (refresh_sequence example_helpers
        [scenario_readings 60000000 "OTHER", scenario_readings 70000000 "THIRD"]
        (dkp_supply_refresh_battery example_helpers (scenario_readings 60000000 "ACME")
          fresh_battery)).obj.vendor
      = (dkp_supply_refresh_battery example_helpers (scenario_readings 60000000 "ACME")
          fresh_battery).obj.vendor :=
  (coldplug_values_kept_while_present example_helpers
    [scenario_readings 60000000 "OTHER", scenario_readings 70000000 "THIRD"]
    (dkp_supply_refresh_battery example_helpers (scenario_readings 60000000 "ACME")
      fresh_battery)
    (by rw [refresh_battery_present _ _ _ rfl, save_history_coldplug,
          (refresh_present_static _ _).2.2.2.2.2]; rfl)
    (by intro r hr; simp only [List.mem_cons, List.mem_nil_iff, or_false] at hr
        rcases hr with rfl | rfl <;> rfl)).2.2.1

/-- C9, counterexample.  For a line-power device `dkp_supply_get_low_battery`
returns `FALSE` without storing an answer, and so does
`dkp_supply_get_on_battery`. -/
theorem low_battery_fails_on_line_power :
    dkp_supply_get_low_battery line_power_object = none
    ∧ dkp_supply_get_on_battery line_power_object = none
    ∧ dkp_supply_get_low_battery line_power_object ≠ some false := by
  decide

/-- C9, amended.  Both queries answer exactly for a present battery and fail
(return `FALSE`, nothing stored) for every other device.  When they answer,
on-battery is (battery and present and discharging) and low-battery is
(on-battery and percentage below 10), so a present battery that is not
discharging gets the definite answer false. -/
theorem derived_queries (obj : DkpObject) :
    dkp_supply_get_on_battery obj =
      (if obj.type = DkpDeviceType.battery ∧ obj.is_present = true
        then some (on_battery_formula obj) else none)
    ∧ dkp_supply_get_low_battery obj =
      (if obj.type = DkpDeviceType.battery ∧ obj.is_present = true
        then some (low_battery_formula obj) else none) := by
  unfold dkp_supply_get_low_battery dkp_supply_get_on_battery low_battery_formula
    on_battery_formula
  by_cases ht : obj.type = DkpDeviceType.battery
  · cases hp : obj.is_present
    · simp [ht]
    · by_cases hs : obj.state = DkpDeviceState.discharging <;> simp [ht, hs]
  · simp [ht]

/-! ## Backlight: printing and parsing of decimal numbers -/

theorem digit_value_digit_char (d : Nat) (hd : d < 10) : digit_value (digit_char d) = some d := by
  interval_cases d <;> rfl

theorem digit_char_not_space (d : Nat) (hd : d < 10) : ISSPACE (digit_char d) = false := by
  interval_cases d <;> rfl

theorem digit_char_not_sign (d : Nat) (hd : d < 10) :
    digit_char d ≠ '-' ∧ digit_char d ≠ '+' := by
  interval_cases d <;> decide

/-- The text of a number starts with a digit. -/
theorem decimal_digits_head (fuel n : Nat) (hn : n < fuel) :
    ∃ d rest, d < 10 ∧ decimal_digits fuel n = digit_char d :: rest := by
  induction fuel generalizing n with
  | zero => omega
  | succ fuel ih =>
    unfold decimal_digits
    by_cases h10 : n < 10
    · exact ⟨n, [], h10, by simp [h10]⟩
    · obtain ⟨d, rest, hd, hrest⟩ := ih (n / 10) (by omega)
      exact ⟨d, rest ++ [digit_char (n % 10)], hd, by simp [h10, hrest]⟩

/-- Reading back the digits of `n` gives `n`. -/
theorem digits_value_decimal_digits (fuel n : Nat) (rest : List Char) (hn : n < fuel) :
    digits_value 0 (decimal_digits fuel n ++ rest) = digits_value n rest := by
  induction fuel generalizing n rest with
  | zero => omega
  | succ fuel ih =>
    unfold decimal_digits
    by_cases h10 : n < 10
    · simp [h10, digits_value, digit_value_digit_char n h10]
    · have hrec := ih (n / 10) (digit_char (n % 10) :: rest) (by omega)
      simp only [h10, if_false, List.append_assoc, List.singleton_append]
      rw [hrec]
      simp only [digits_value, digit_value_digit_char (n % 10) (Nat.mod_lt n (by norm_num))]
      congr 1
      omega

/-- A number below `10 ^ k` has at most `k` digits. -/
theorem decimal_digits_length (fuel n k : Nat) (hk : n < 10 ^ (k + 1)) :
    (decimal_digits fuel n).length ≤ k + 1 := by
  induction fuel generalizing n k with
  | zero => simp [decimal_digits]
  | succ fuel ih =>
    unfold decimal_digits
    by_cases h10 : n < 10
    · simp [h10]
    · simp only [h10, if_false, List.length_append, List.length_singleton]
      cases k with
      | zero => omega
      | succ k =>
        have : n / 10 < 10 ^ (k + 1) := by
          rw [Nat.div_lt_iff_lt_mul (by norm_num)]
          calc n < 10 ^ (k + 1 + 1) := hk
            _ = 10 ^ (k + 1) * 10 := by ring
        have := ih (n / 10) k this
        omega

/-- Text that does not start with a digit adds nothing to the digits read. -/
theorem digits_value_stop (acc : Nat) (rest : List Char)
    (hrest : starts_with_digit rest = false) : digits_value acc rest = acc := by
  cases rest with
  | nil => rfl
  | cons c cs =>
    unfold starts_with_digit at hrest
    unfold digits_value
    cases hc : digit_value c with
    | none => rfl
    | some v => simp [hc] at hrest

/-- A part of a text that does not start with a digit does not start with one. -/
theorem starts_with_digit_take (k : Nat) (rest : List Char)
    (hrest : starts_with_digit rest = false) : starts_with_digit (rest.take k) = false := by
  cases rest with
  | nil => simp [starts_with_digit]
  | cons c cs =>
    cases k with
    | zero => rfl
    | succ k => exact hrest

/-- Parsing the printed text of a natural number below `2^63`, followed by text
that does not start with a digit. -/
theorem strtoll_decimal_digits (fuel n : Nat) (rest : List Char) (hn : n < fuel)
    (hsmall : n ≤ 9223372036854775807) (hrest : starts_with_digit rest = false) :
    g_ascii_strtoll (decimal_digits fuel n ++ rest) = ((n : Int), true) := by
  obtain ⟨d, tl, hd, htl⟩ := decimal_digits_head fuel n hn
  have hval : digits_value 0 (decimal_digits fuel n ++ rest) = n := by
    rw [digits_value_decimal_digits fuel n rest hn, digits_value_stop n rest hrest]
  have hcons : decimal_digits fuel n ++ rest = digit_char d :: (tl ++ rest) := by
    rw [htl]
    rfl
  have hdrop : (decimal_digits fuel n ++ rest).dropWhile ISSPACE
      = decimal_digits fuel n ++ rest := by
    rw [hcons, List.dropWhile_cons, digit_char_not_space d hd]
    simp
  have hskip : skip_sign (decimal_digits fuel n ++ rest) = decimal_digits fuel n ++ rest := by
    rw [hcons]
    simp [skip_sign, (digit_char_not_sign d hd).1, (digit_char_not_sign d hd).2]
  have hstart : starts_with_digit (decimal_digits fuel n ++ rest) = true := by
    rw [hcons]
    simp [starts_with_digit, digit_value_digit_char d hd]
  have hneg : decide ((decimal_digits fuel n ++ rest).head? = some '-') = false := by
    rw [hcons]
    simp [(digit_char_not_sign d hd).1]
  unfold g_ascii_strtoll
  simp only [hdrop, hskip, hstart, hneg, if_true, hval]
  simp only [Bool.false_eq_true, if_false, Prod.mk.injEq, and_true]
  exact min_eq_left (by exact_mod_cast hsmall)

/-! ## Backlight: the claims -/

/-- C10.  Round trip on one device of maximum `M` (a `gint`, so at most
`2^31 - 1`): for `0 ≤ V ≤ M`, if `up_kbd_backlight_device_brightness_write`
succeeds and the brightness attribute then holds the text it wrote (possibly
followed by text that does not start with a digit, such as the newline the
kernel appends), `up_kbd_backlight_device_brightness_read` on that attribute
returns `V`. -/
theorem brightness_round_trip (files : LedFiles) (device : UpKbdBacklightDevice) (V : Int)
    (text suffix : List Char)
    (hV0 : 0 ≤ V) (hVmax : V ≤ device.max_brightness)
    (hgint : device.max_brightness ≤ 2147483647)
    (hwrite : up_kbd_backlight_device_brightness_write files device V
      = { ret := true, text := some text })
    (hsuffix : starts_with_digit suffix = false)
    (hfile : files.read device.fd = text ++ suffix) :
    up_kbd_backlight_device_brightness_read device device.fd (files.read device.fd) = V := by
  obtain ⟨n, rfl⟩ := Int.eq_ofNat_of_zero_le hV0
  have hfd : ¬ device.fd < 0 := by
    intro hneg
    simp [up_kbd_backlight_device_brightness_write, hneg] at hwrite
  have hclamp : CLAMP (n : Int) 0 device.max_brightness = n := by
    unfold CLAMP
    rw [if_neg (not_lt.mpr hVmax), if_neg (not_lt.mpr hV0)]
  have htext : text = decimal_digits (n + 1) n := by
    unfold up_kbd_backlight_device_brightness_write at hwrite
    rw [if_neg hfd] at hwrite
    simp only [hclamp] at hwrite
    have hp : printf_i (n : Int) = decimal_digits (n + 1) n := by
      unfold printf_i
      rw [if_neg (not_lt.mpr hV0)]
      simp
    rw [hp] at hwrite
    split_ifs at hwrite
    · simp at hwrite
    · simpa using hwrite.symm
  have hn : n ≤ 2147483647 := by omega
  have hlen : (decimal_digits (n + 1) n).length ≤ 10 :=
    decimal_digits_length (n + 1) n 9 (by omega)
  obtain ⟨d, tl, hd, htl⟩ := decimal_digits_head (n + 1) n (Nat.lt_succ_self n)
  have htake : (decimal_digits (n + 1) n ++ suffix).take 15
      = decimal_digits (n + 1) n
        ++ suffix.take (15 - (decimal_digits (n + 1) n).length) := by
    rw [List.take_append_eq_append_take, List.take_of_length_le (by omega)]
  have hpos : 0 < (decimal_digits (n + 1) n
      ++ suffix.take (15 - (decimal_digits (n + 1) n).length)).length := by
    rw [htl]
    simp
  have hparse := strtoll_decimal_digits (n + 1) n
    (suffix.take (15 - (decimal_digits (n + 1) n).length)) (Nat.lt_succ_self n) (by omega)
    (starts_with_digit_take _ suffix hsuffix)
  unfold up_kbd_backlight_device_brightness_read
  rw [if_neg hfd, hfile, htext]
  simp only [htake, hparse, gt_iff_lt, hpos, if_true]
  rw [if_neg]
  simp only [not_or, not_lt]
  exact ⟨hV0, hVmax, by simp⟩

/-- C10, witness: the value 100 on a device of maximum 255 whose attribute
reads as the text written followed by a newline. -/
theorem brightness_round_trip_witness :
    up_kbd_backlight_device_brightness_read example_device_255 example_device_255.fd
      (example_files_100.read example_device_255.fd) = 100 :=
  brightness_round_trip example_files_100 example_device_255 100 ['1', '0', '0'] ['\n']
    (by decide) (by decide) (by decide) (by decide) (by decide) (by decide)

/-- C2, the failing input.  On the group of two devices of maximum 100, with
every write succeeding, `set_brightness (150)` writes the text `100` to both
devices and then emits the two change signals with the value 150, the second
with the source `external`. -/
theorem set_brightness_emits_unclamped :
    up_kbd_backlight_set_brightness example_files group_100 150 =
      { writes := [("a::kbd_backlight", some ['1', '0', '0']),
                   ("b::kbd_backlight", some ['1', '0', '0'])]
        replies := [KbdReply.complete_set_brightness]
        signals := [KbdSignal.brightness_changed 150,
                    KbdSignal.brightness_changed_with_source 150 "external"] }
    ∧ CLAMP 150 0 group_100.max_brightness = 100 := by
  decide

/-- C8, the failing input.  For two devices with the maxima 0 and 100,
`up_kbd_backlight_find` succeeds and leaves the group maximum 100, and
`up_kbd_backlight_get_max_brightness` answers 100.  (For the maxima 100 and 255
the group maximum is -1 and the answer is the error.) -/
theorem find_misses_disagreement_after_zero :
    (up_kbd_backlight_find example_files example_collate up_kbd_backlight_new
        leds_0_100).2 = true
    ∧ (up_kbd_backlight_find example_files example_collate up_kbd_backlight_new
        leds_0_100).1.max_brightness = 100
    ∧ up_kbd_backlight_get_max_brightness
        (up_kbd_backlight_find example_files example_collate up_kbd_backlight_new
          leds_0_100).1 = KbdReply.complete_get_max_brightness 100
    ∧ (up_kbd_backlight_find example_files example_collate up_kbd_backlight_new
        leds_100_255).1.max_brightness = -1
    ∧ up_kbd_backlight_get_max_brightness
        (up_kbd_backlight_find example_files example_collate up_kbd_backlight_new
          leds_100_255).1 = KbdReply.return_error KbdError.different_maximum_brightnesses := by
  decide

/-! ## Enumerator: lemmas -/

theorem lookup_insert {α : Type} (table : List (String × α)) (key : String) (value : α) :
    g_hash_table_lookup (g_hash_table_insert table key value) key = some value := by
  simp [g_hash_table_insert, g_hash_table_lookup]

theorem g_initable_new_native (p : Platform) (t : UpDeviceType) (d : GUdevDevice) (b : Bool)
    (up : UpDevice) (h : g_initable_new p t d b = some up) : up.native = d := by
  unfold g_initable_new at h
  split_ifs at h
  cases h
  rfl

/-- The object that `device_new` makes wraps the device it was made for. -/
theorem device_new_native (p : Platform) (d : GUdevDevice) (up : UpDevice)
    (h : device_new p d = some up) : up.native = d := by
  unfold device_new at h
  dsimp only at h
  split_ifs at h
  all_goals try exact g_initable_new_native _ _ _ _ _ h
  all_goals
    split at h
    · rename_i dev hdev
      cases h
      exact g_initable_new_native _ _ _ _ _ hdev
    · exact g_initable_new_native _ _ _ _ _ h

theorem count_sibling_events (up_dev : Option UpDevice) (obj : GObject) (l : List GObject) :
    count_device_added (sibling_events up_dev obj l) = 0 := by
  induction l with
  | nil => rfl
  | cons x rest ih =>
    unfold count_device_added at ih ⊢
    unfold sibling_events
    rw [List.countP_append, List.countP_append, ih]
    cases up_dev <;> cases x <;> rfl

theorem signals_sibling_events (up_dev : Option UpDevice) (obj : GObject) (l : List GObject) :
    signals_of (sibling_events up_dev obj l) = [] := by
  induction l with
  | nil => rfl
  | cons x rest ih =>
    unfold signals_of at ih ⊢
    unfold sibling_events
    rw [List.filter_append, List.filter_append, ih]
    cases up_dev <;> cases x <;> rfl

/-- Adding a device that `device_new` makes an object for: the key is mapped to
the object, and the effects are sibling events followed by one `device-added`. -/
theorem add_new_classified (p : Platform) (self : UpEnumeratorUdev) (d : GUdevDevice)
    (up : UpDevice) (hnew : device_new p d = some up) :
    (uevent_add_new p self d).1.known
        = g_hash_table_insert self.known (device_key d) (GObject.up_device up)
    ∧ count_device_added (uevent_add_new p self d).2 = 1
    ∧ signals_of (uevent_add_new p self d).2 = [Effect.device_added up] := by
  unfold uevent_add_new
  simp only [hnew]
  cases hp : device_parent_id d with
  | none => exact ⟨rfl, rfl, rfl⟩
  | some parent_id =>
    dsimp only
    cases hl : g_hash_table_lookup self.siblings parent_id with
    | none => exact ⟨rfl, rfl, rfl⟩
    | some devices =>
      refine ⟨rfl, ?_, ?_⟩
      · show count_device_added (sibling_events _ _ _ ++ _) = 1
        unfold count_device_added
        rw [List.countP_append]
        have := count_sibling_events (some up) (GObject.up_device up) devices
        unfold count_device_added at this
        rw [this]
        rfl
      · show signals_of (sibling_events _ _ _ ++ _) = _
        unfold signals_of
        rw [List.filter_append]
        have := signals_sibling_events (some up) (GObject.up_device up) devices
        unfold signals_of at this
        rw [this]
        rfl

/-- An `add` of a device whose key is mapped to the object made for this very
device only refreshes that object. -/
theorem add_known_refreshes (p : Platform) (self : UpEnumeratorUdev) (d : GUdevDevice)
    (o : UpDevice) (hfound : g_hash_table_lookup self.known (device_key d)
      = some (GObject.up_device o))
    (hpath : d.get_sysfs_path = o.native.get_sysfs_path) :
    uevent_signal_handler_cb p self "add" d = (self, [Effect.refresh_internal o]) := by
  unfold uevent_signal_handler_cb
  simp [hfound, hpath]

/-- An `add` of a device whose key is mapped to an object with another path:
the old object is removed, then the device is added as new. -/
theorem add_stale_unfold (p : Platform) (self : UpEnumeratorUdev) (d : GUdevDevice)
    (o : UpDevice) (hfound : g_hash_table_lookup self.known (device_key d)
      = some (GObject.up_device o))
    (hpath : d.get_sysfs_path ≠ o.native.get_sysfs_path) :
    uevent_signal_handler_cb p self "add" d =
      ((uevent_add_new p (uevent_remove self d).1 d).1,
        (uevent_remove self d).2 ++ (uevent_add_new p (uevent_remove self d).1 d).2)
    ∧ (uevent_remove self d).2 = [Effect.device_removed o] := by
  constructor
  · unfold uevent_signal_handler_cb
    simp [hfound, hpath]
  · unfold uevent_remove
    simp [hfound]

/-! ## Enumerator: the claims -/

/-- C6, counterexample.  On an enumerator that already holds the battery `BAT0`
(it was added once), two further `add` events for `BAT0` emit no `device-added`
at all: each of them only refreshes the object. -/
theorem add_twice_known_emits_none :
    count_device_added
      ((uevent_signal_handler_cb example_platform enumerator_with_bat0 "add" bat0).2
        ++ (uevent_signal_handler_cb example_platform
            (uevent_signal_handler_cb example_platform enumerator_with_bat0 "add" bat0).1
            "add" bat0).2) = 0
    ∧ device_new example_platform bat0 ≠ none := by
  decide

/-- C6, amended.  Let `d` be a device that `device_new` makes an object for, and
let two `add` events for `d` be handled in a row.  The second `add` leaves the
enumerator (registry and sibling index) as the first left it, and its only
effect is a refresh of the object the key is mapped to; it does nothing when the
key is mapped to a raw handle.  The two events emit one `device-added` in total
when the key was unmapped, or mapped to an object of another sysfs path, before
the first event, and none otherwise. -/
theorem add_twice (p : Platform) (self : UpEnumeratorUdev) (d : GUdevDevice) (up : UpDevice)
    (hnew : device_new p d = some up) :
    (uevent_signal_handler_cb p (uevent_signal_handler_cb p self "add" d).1 "add" d).1
        = (uevent_signal_handler_cb p self "add" d).1
    ∧ (uevent_signal_handler_cb p (uevent_signal_handler_cb p self "add" d).1 "add" d).2
        = (match g_hash_table_lookup self.known (device_key d) with
          | none => [Effect.refresh_internal up]
          | some (GObject.up_device o) =>
            if d.get_sysfs_path = o.native.get_sysfs_path then [Effect.refresh_internal o]
            else [Effect.refresh_internal up]
          | some (GObject.udev_device _) => [])
    ∧ count_device_added
        ((uevent_signal_handler_cb p self "add" d).2
          ++ (uevent_signal_handler_cb p (uevent_signal_handler_cb p self "add" d).1 "add" d).2)
        = (match g_hash_table_lookup self.known (device_key d) with
          | none => 1
          | some (GObject.up_device o) =>
            if d.get_sysfs_path = o.native.get_sysfs_path then 0 else 1
          | some (GObject.udev_device _) => 0) := by
  have hnative := device_new_native p d up hnew
  have hsecond : ∀ s : UpEnumeratorUdev,
      uevent_signal_handler_cb p (uevent_add_new p s d).1 "add" d
        = ((uevent_add_new p s d).1, [Effect.refresh_internal up]) := by
    intro s
    apply add_known_refreshes
    · rw [(add_new_classified p s d up hnew).1, lookup_insert]
    · rw [hnative]
  cases hl : g_hash_table_lookup self.known (device_key d) with
  | none =>
    have h1 : uevent_signal_handler_cb p self "add" d = uevent_add_new p self d := by
      unfold uevent_signal_handler_cb
      simp [hl]
    have h2 : uevent_signal_handler_cb p (uevent_signal_handler_cb p self "add" d).1 "add" d
        = ((uevent_add_new p self d).1, [Effect.refresh_internal up]) := by
      rw [h1]
      exact hsecond _
    rw [h2, h1]
    refine ⟨rfl, rfl, ?_⟩
    show count_device_added (_ ++ _) = 1
    unfold count_device_added
    rw [List.countP_append]
    have := (add_new_classified p self d up hnew).2.1
    unfold count_device_added at this
    rw [this]
    rfl
  | some obj =>
    cases obj with
    | udev_device g =>
      have h1 : uevent_signal_handler_cb p self "add" d = (self, []) := by
        unfold uevent_signal_handler_cb
        simp [hl]
      have h2 : uevent_signal_handler_cb p (uevent_signal_handler_cb p self "add" d).1 "add" d
          = (self, []) := by
        rw [h1]
        exact h1
      rw [h2, h1]
      exact ⟨rfl, rfl, rfl⟩
    | up_device o =>
      by_cases hpath : d.get_sysfs_path = o.native.get_sysfs_path
      · have h1 := add_known_refreshes p self d o hl hpath
        have h2 : uevent_signal_handler_cb p (uevent_signal_handler_cb p self "add" d).1 "add" d
            = (self, [Effect.refresh_internal o]) := by
          rw [h1]
          exact h1
        rw [h2, h1]
        simp only [hpath, if_true]
        exact ⟨trivial, trivial, rfl⟩
      · obtain ⟨h1, hrem⟩ := add_stale_unfold p self d o hl hpath
        have h2 : uevent_signal_handler_cb p (uevent_signal_handler_cb p self "add" d).1 "add" d
            = ((uevent_add_new p (uevent_remove self d).1 d).1, [Effect.refresh_internal up]) := by
          rw [h1]
          exact hsecond _
        rw [h2, h1]
        simp only [hpath, if_false]
        refine ⟨trivial, trivial, ?_⟩
        rw [hrem]
        unfold count_device_added
        rw [List.countP_append, List.countP_append]
        have := (add_new_classified p (uevent_remove self d).1 d up hnew).2.1
        unfold count_device_added at this
        rw [this]
        rfl

/-- C6, witness: two `add` events for `BAT0` on an empty enumerator. -/
theorem add_twice_witness :
    count_device_added
      ((uevent_signal_handler_cb example_platform up_enumerator_udev_init "add" bat0).2
        ++ (uevent_signal_handler_cb example_platform
            (uevent_signal_handler_cb example_platform up_enumerator_udev_init "add" bat0).1
            "add" bat0).2) = 1 :=
  (add_twice example_platform up_enumerator_udev_init bat0
    (supply_device bat0) (by decide)).2.2

/-- Adding a device that is not in `known`: the key is mapped to the object
that `device_new` makes, or to the device itself when it makes none, and
`device-added` is emitted in the first case only. -/
theorem add_new_signals (p : Platform) (self : UpEnumeratorUdev) (d : GUdevDevice) :
    (uevent_add_new p self d).1.known
        = g_hash_table_insert self.known (device_key d)
            (match device_new p d with
             | some up => GObject.up_device up
             | none => GObject.udev_device d)
    ∧ signals_of (uevent_add_new p self d).2
        = (match device_new p d with
           | some up => [Effect.device_added up]
           | none => []) := by
  cases hnew : device_new p d with
  | some up =>
    obtain ⟨h1, -, h3⟩ := add_new_classified p self d up hnew
    exact ⟨h1, h3⟩
  | none =>
    unfold uevent_add_new
    simp only [hnew]
    cases hp : device_parent_id d with
    | none => exact ⟨rfl, rfl⟩
    | some parent_id =>
      dsimp only
      cases hl : g_hash_table_lookup self.siblings parent_id with
      | none => exact ⟨rfl, rfl⟩
      | some devices =>
        refine ⟨rfl, ?_⟩
        show signals_of (sibling_events _ _ _ ++ _) = _
        unfold signals_of
        rw [List.filter_append]
        have := signals_sibling_events none (GObject.udev_device d) devices
        unfold signals_of at this
        rw [this]
        rfl

/-- C7, counterexample.  The enumerator holds the device object of `BAT0`, and
an `add` arrives for a device of the same name at another sysfs path, for which
`g_initable_new` fails: the handler emits `device-removed` for the old object
and no `device-added`, and the key is mapped to the device itself, not to a
device object. -/
theorem add_over_stale_entry_unclassified :
    g_hash_table_lookup enumerator_with_bat0.known (device_key bat0_moved)
        = some (GObject.up_device (supply_device bat0))
    ∧ bat0_moved.get_sysfs_path ≠ (supply_device bat0).native.get_sysfs_path
    ∧ (uevent_signal_handler_cb picky_platform up_enumerator_udev_init "add" bat0).1
        = enumerator_with_bat0
    ∧ signals_of (uevent_signal_handler_cb picky_platform enumerator_with_bat0 "add"
        bat0_moved).2 = [Effect.device_removed (supply_device bat0)]
    ∧ count_device_added (uevent_signal_handler_cb picky_platform enumerator_with_bat0 "add"
        bat0_moved).2 = 0
    ∧ (uevent_signal_handler_cb picky_platform enumerator_with_bat0 "add" bat0_moved).1.known
        = [("BAT0", GObject.udev_device bat0_moved)] := by
  decide

/-- C7, amended.  When an `add` arrives whose key is mapped to a device object
of another sysfs path, the handler emits `device-removed` for the old object;
when `device_new` makes an object for the device, `device-added` for that
object follows, and when it makes none, no `device-added` is emitted.  These
are the only signals.  Afterwards the key is mapped to the new object, or to
the device itself when none was made, and to nothing else. -/
theorem add_over_stale_entry (p : Platform) (self : UpEnumeratorUdev) (d : GUdevDevice)
    (old : UpDevice)
    (hfound : g_hash_table_lookup self.known (device_key d) = some (GObject.up_device old))
    (hpath : d.get_sysfs_path ≠ old.native.get_sysfs_path) :
    signals_of (uevent_signal_handler_cb p self "add" d).2
        = Effect.device_removed old ::
          (match device_new p d with
           | some new => [Effect.device_added new]
           | none => [])
    ∧ g_hash_table_lookup (uevent_signal_handler_cb p self "add" d).1.known (device_key d)
        = some (match device_new p d with
           | some new => GObject.up_device new
           | none => GObject.udev_device d)
    ∧ ∀ obj, (device_key d, obj) ∈ (uevent_signal_handler_cb p self "add" d).1.known →
        obj = (match device_new p d with
           | some new => GObject.up_device new
           | none => GObject.udev_device d) := by
  obtain ⟨h1, hrem⟩ := add_stale_unfold p self d old hfound hpath
  obtain ⟨hknown, hsig⟩ := add_new_signals p (uevent_remove self d).1 d
  rw [h1]
  dsimp only
  refine ⟨?_, ?_, ?_⟩
  · rw [hrem]
    unfold signals_of at hsig ⊢
    rw [List.filter_append, hsig]
    rfl
  · rw [hknown, lookup_insert]
  · intro obj hmem
    rw [hknown] at hmem
    unfold g_hash_table_insert g_hash_table_steal at hmem
    simp only [List.mem_cons, Prod.mk.injEq, true_and, List.mem_filter, ne_eq,
      decide_not, Bool.not_eq_true', decide_eq_false_iff_not, not_true_eq_false, and_false,
      or_false] at hmem
    exact hmem

/-- C7, witness: `BAT0` is known and an `add` arrives for a device of the same
name at another sysfs path, on a platform where `g_initable_new` succeeds. -/
theorem add_over_stale_entry_witness :
    signals_of (uevent_signal_handler_cb example_platform enumerator_with_bat0 "add"
        bat0_moved).2
      = [Effect.device_removed (supply_device bat0),
         Effect.device_added (supply_device bat0_moved)]
    ∧ (uevent_signal_handler_cb example_platform enumerator_with_bat0 "add"
        bat0_moved).1.known = [("BAT0", GObject.up_device (supply_device bat0_moved))] :=
  ⟨(add_over_stale_entry example_platform enumerator_with_bat0 bat0_moved
    (supply_device bat0) (by decide) (by decide)).1, by decide⟩

/-! ## Battery: the rate -/

theorem read_charge_rate (r : Sysfs) (s : DkpSupply) :
    (read_charge r s).obj.energy_rate = hardware_rate r.current_now := rfl

/-- The rate taken from the hardware is not negative, or it is `-1`. -/
theorem hardware_rate_sign (c : ℚ) : 0 ≤ hardware_rate c ∨ hardware_rate c = -1 := by
  unfold hardware_rate
  dsimp only
  split_ifs
  · exact Or.inr rfl
  · exact Or.inr rfl
  · exact Or.inr rfl
  · exact Or.inl (abs_nonneg _)

/-- The rate calculation keeps the rate or stores a positive one. -/
theorem calculate_rate_sign (now : Int) (s : DkpSupply) :
    (dkp_supply_calculate_rate now s).obj.energy_rate = s.obj.energy_rate
    ∨ 0 < (dkp_supply_calculate_rate now s).obj.energy_rate := by
  unfold dkp_supply_calculate_rate
  dsimp only
  split_ifs with h1 h2 h3 h4 h5
  · exact Or.inl rfl
  · exact Or.inl rfl
  · exact Or.inl rfl
  · exact Or.inl rfl
  · exact Or.inl rfl
  · right
    show 0 < (s.priv.energy_old - s.obj.energy) * 3600
      / (((now - s.priv.energy_old_timespec) % 4294967296 : Int) : ℚ)
    have hpos : (0 : Int) < (now - s.priv.energy_old_timespec) % 4294967296 :=
      lt_of_le_of_ne (Int.emod_nonneg _ (by norm_num)) (Ne.symm h4)
    have hposq : (0 : ℚ) < (((now - s.priv.energy_old_timespec) % 4294967296 : Int) : ℚ) := by
      exact_mod_cast hpos
    have hen : (0 : ℚ) < s.priv.energy_old - s.obj.energy := by
      have : (1 : ℚ) / 10 ≤ s.priv.energy_old - s.obj.energy := not_lt.mp h5
      linarith
    positivity

/-- The rate calculation, case by case. -/
theorem calculate_rate_value (now : Int) (s : DkpSupply) :
    dkp_supply_calculate_rate now s =
      (if 0 ≤ s.obj.energy ∧ 0 ≤ s.priv.energy_old
          ∧ 1 / 10 ≤ s.priv.energy_old - s.obj.energy
          ∧ (now - s.priv.energy_old_timespec) % 4294967296 ≠ 0 then
        { s with obj := { s.obj with
            energy_rate := (s.priv.energy_old - s.obj.energy) * 3600
              / (((now - s.priv.energy_old_timespec) % 4294967296 : Int) : ℚ) } }
       else s) := by
  unfold dkp_supply_calculate_rate
  dsimp only
  by_cases h1 : s.obj.energy < 0
  · rw [if_pos h1, if_neg]
    exact fun hc => absurd hc.1 (not_le.mpr h1)
  rw [if_neg h1]
  by_cases h2 : s.priv.energy_old < 0
  · rw [if_pos h2, if_neg]
    exact fun hc => absurd hc.2.1 (not_le.mpr h2)
  rw [if_neg h2]
  by_cases h3 : s.priv.energy_old = s.obj.energy
  · rw [if_pos h3, if_neg]
    intro hc
    have := hc.2.2.1
    rw [h3, sub_self] at this
    norm_num at this
  rw [if_neg h3]
  by_cases h4 : (now - s.priv.energy_old_timespec) % 4294967296 = 0
  · rw [if_pos h4, if_neg]
    exact fun hc => hc.2.2.2 h4
  rw [if_neg h4]
  by_cases h5 : s.priv.energy_old - s.obj.energy < 1 / 10
  · rw [if_pos h5, if_neg]
    exact fun hc => absurd hc.2.2.1 (not_le.mpr h5)
  rw [if_neg h5, if_pos ⟨not_lt.mp h1, not_lt.mp h2, not_lt.mp h5, h4⟩]

/-- The rate that the present path stores. -/
theorem refresh_present_rate (r : Sysfs) (s : DkpSupply) :
    (refresh_present r s).obj.energy_rate =
      (if hardware_rate r.current_now < 0 then
        dkp_supply_calculate_rate r.clock_rate (read_charge r s)
       else read_charge r s).obj.energy_rate := rfl

theorem derive_values_sample (state : DkpDeviceState) (clock : Int) (s : DkpSupply) :
    (derive_values state clock s).obj.state = state
    ∧ (derive_values state clock s).priv.energy_old =
        (if s.obj.state ≠ state then -1 else s.obj.energy)
    ∧ (derive_values state clock s).priv.energy_old_timespec = clock :=
  ⟨rfl, rfl, rfl⟩

/-- The state, the kept energy sample and its time after the present path. -/
theorem refresh_present_sample (r : Sysfs) (s : DkpSupply) :
    (refresh_present r s).obj.state = status_to_state (g_strstrip r.status)
    ∧ (refresh_present r s).priv.energy_old =
        (if s.obj.state ≠ status_to_state (g_strstrip r.status) then -1
         else (read_charge r s).obj.energy)
    ∧ (refresh_present r s).priv.energy_old_timespec = r.clock_sample := by
  unfold refresh_present
  dsimp only
  by_cases hneg : (read_charge r s).obj.energy_rate < 0
  · rw [if_pos hneg]
    obtain ⟨rate, hr⟩ := calculate_rate_frame r.clock_rate (read_charge r s)
    rw [hr]
    exact derive_values_sample _ _ _
  · rw [if_neg hneg]
    exact derive_values_sample _ _ _

theorem read_charge_energy (r : Sysfs) (s : DkpSupply) :
    (read_charge r s).obj.energy = energy_reading r := rfl

/-- The state before the present path: the coldplug block leaves the state
and the kept energy sample alone. -/
theorem before_present_sample (h : Helpers) (r : Sysfs) (s : DkpSupply) :
    (if s.priv.has_coldplug_values = true then
        { s with obj := { s.obj with is_present := true } }
      else coldplug_values h r { s with obj := { s.obj with is_present := true } }).obj.state
      = s.obj.state
    ∧ (if s.priv.has_coldplug_values = true then
        { s with obj := { s.obj with is_present := true } }
      else coldplug_values h r
        { s with obj := { s.obj with is_present := true } }).priv.energy_old
      = s.priv.energy_old
    ∧ (if s.priv.has_coldplug_values = true then
        { s with obj := { s.obj with is_present := true } }
      else coldplug_values h r
        { s with obj := { s.obj with is_present := true } }).priv.energy_old_timespec
      = s.priv.energy_old_timespec := by
  cases s.priv.has_coldplug_values <;> exact ⟨rfl, rfl, rfl⟩

/-- The state, the kept energy sample and its time after the refresh of a
present battery. -/
theorem refresh_battery_sample (h : Helpers) (r : Sysfs) (s : DkpSupply)
    (hpresent : r.present = true) :
    (dkp_supply_refresh_battery h r s).obj.state = status_to_state (g_strstrip r.status)
    ∧ (dkp_supply_refresh_battery h r s).priv.energy_old =
        (if s.obj.state ≠ status_to_state (g_strstrip r.status) then -1
         else energy_reading r)
    ∧ (dkp_supply_refresh_battery h r s).priv.energy_old_timespec = r.clock_sample := by
  rw [refresh_battery_present h r s hpresent]
  obtain ⟨b1, -, -⟩ := before_present_sample h r s
  obtain ⟨p1, p2, p3⟩ := refresh_present_sample r
    (if s.priv.has_coldplug_values = true then
        { s with obj := { s.obj with is_present := true } }
      else coldplug_values h r { s with obj := { s.obj with is_present := true } })
  rw [b1, read_charge_energy] at p2
  exact ⟨p1, p2, p3⟩

/-- The rate after the refresh of a present battery: the rate calculated from
the kept energy sample when the hardware gives none and the calculation
applies, and the rate of the hardware otherwise. -/
theorem refresh_battery_rate (h : Helpers) (r : Sysfs) (s : DkpSupply)
    (hpresent : r.present = true) :
    (dkp_supply_refresh_battery h r s).obj.energy_rate =
      (if hardware_rate r.current_now < 0 ∧ 0 ≤ energy_reading r ∧ 0 ≤ s.priv.energy_old
          ∧ 1 / 10 ≤ s.priv.energy_old - energy_reading r
          ∧ (r.clock_rate - s.priv.energy_old_timespec) % 4294967296 ≠ 0 then
        (s.priv.energy_old - energy_reading r) * 3600
          / (((r.clock_rate - s.priv.energy_old_timespec) % 4294967296 : Int) : ℚ)
       else hardware_rate r.current_now) := by
  rw [refresh_battery_present h r s hpresent, save_history_obj, refresh_present_rate]
  obtain ⟨-, b2, b3⟩ := before_present_sample h r s
  generalize (if s.priv.has_coldplug_values = true then
      { s with obj := { s.obj with is_present := true } }
    else coldplug_values h r { s with obj := { s.obj with is_present := true } }) = s1
    at b2 b3
  have e2 : (read_charge r s1).priv.energy_old = s.priv.energy_old := b2
  have e3 : (read_charge r s1).priv.energy_old_timespec = s.priv.energy_old_timespec := b3
  by_cases hneg : hardware_rate r.current_now < 0
  · rw [if_pos hneg, calculate_rate_value, read_charge_energy, e2, e3]
    by_cases hc : 0 ≤ energy_reading r ∧ 0 ≤ s.priv.energy_old
          ∧ 1 / 10 ≤ s.priv.energy_old - energy_reading r
          ∧ (r.clock_rate - s.priv.energy_old_timespec) % 4294967296 ≠ 0
    · rw [if_pos hc, if_pos ⟨hneg, hc⟩]
    · rw [if_neg hc, if_neg (fun hh => hc hh.2)]
      exact read_charge_rate r s1
  · rw [if_neg hneg, if_neg (fun hh => hneg hh.1)]
    exact read_charge_rate r s1

/-- C11.  After a battery refresh that reads the battery as present, whatever
`current_now`, the previous energy sample and the clock, `energy_rate` is not
negative or is exactly `-1`. -/
theorem energy_rate_nonneg_or_unknown (h : Helpers) (r : Sysfs) (s : DkpSupply)
    (hpresent : r.present = true) :
    0 ≤ (dkp_supply_refresh_battery h r s).obj.energy_rate
    ∨ (dkp_supply_refresh_battery h r s).obj.energy_rate = -1 := by
  rw [refresh_battery_present h r s hpresent, save_history_obj, refresh_present_rate]
  generalize (if s.priv.has_coldplug_values = true then
      { s with obj := { s.obj with is_present := true } }
    else coldplug_values h r { s with obj := { s.obj with is_present := true } }) = s1
  by_cases hneg : hardware_rate r.current_now < 0
  · rw [if_pos hneg]
    rcases calculate_rate_sign r.clock_rate (read_charge r s1) with hkeep | hpos
    · rw [hkeep, read_charge_rate]
      exact hardware_rate_sign _
    · exact Or.inl (le_of_lt hpos)
  · rw [if_neg hneg, read_charge_rate]
    exact Or.inl (not_lt.mp hneg)

/-- C11, witness: the scenario readings on a fresh battery. -/
theorem energy_rate_nonneg_or_unknown_witness :
    0 ≤ (dkp_supply_refresh_battery example_helpers (scenario_readings 60000000 "ACME")
        fresh_battery).obj.energy_rate
    ∨ (dkp_supply_refresh_battery example_helpers (scenario_readings 60000000 "ACME")
        fresh_battery).obj.energy_rate = -1 :=
  energy_rate_nonneg_or_unknown example_helpers (scenario_readings 60000000 "ACME")
    fresh_battery rfl

/-- C12, counterexample.  The previous sample is 40 Wh, the current energy
41 Wh and 30 seconds have passed: both energies are non-negative, they differ
by more than 0.1, the elapsed time is not zero, and `dkp_supply_calculate_rate`
leaves the rate at `-1`. -/
theorem calculate_rate_ignores_rising_energy :
    (dkp_supply_calculate_rate 1030 rising_energy_sample).obj.energy_rate = -1
    ∧ 0 ≤ rising_energy_sample.priv.energy_old
    ∧ 0 ≤ rising_energy_sample.obj.energy
    ∧ rising_energy_sample.priv.energy_old ≠ rising_energy_sample.obj.energy
    ∧ |rising_energy_sample.priv.energy_old - rising_energy_sample.obj.energy| ≥ 1 / 10
    ∧ (1030 - rising_energy_sample.priv.energy_old_timespec) % 4294967296 ≠ 0 := by
  refine ⟨?_, ?_, ?_, ?_, ?_, ?_⟩
  · simp only [dkp_supply_calculate_rate, rising_energy_sample, fresh_battery]
    norm_num
  · simp [rising_energy_sample]
  · simp [rising_energy_sample]
  · simp [rising_energy_sample]
  · simp only [rising_energy_sample]
    norm_num [abs_of_neg]
  · simp [rising_energy_sample, fresh_battery]

/-- The rate calculation in double arithmetic keeps the device as it is or
stores the computed rate. -/
theorem calculate_rate_double_value (fl : DoubleArith) (now : Int) (s : DkpSupply) :
    dkp_supply_calculate_rate_double fl now s =
      (if 0 ≤ s.obj.energy ∧ 0 ≤ s.priv.energy_old ∧ s.priv.energy_old ≠ s.obj.energy
          ∧ (now - s.priv.energy_old_timespec) % 4294967296 ≠ 0
          ∧ fl.tenth ≤ fl.sub s.priv.energy_old s.obj.energy then
        { s with obj := { s.obj with
            energy_rate := fl.div (fl.mul (fl.sub s.priv.energy_old s.obj.energy) 3600)
              (((now - s.priv.energy_old_timespec) % 4294967296 : Int) : ℚ) } }
       else s) := by
  unfold dkp_supply_calculate_rate_double
  dsimp only
  by_cases h1 : s.obj.energy < 0
  · rw [if_pos h1, if_neg]
    exact fun hc => absurd hc.1 (not_le.mpr h1)
  rw [if_neg h1]
  by_cases h2 : s.priv.energy_old < 0
  · rw [if_pos h2, if_neg]
    exact fun hc => absurd hc.2.1 (not_le.mpr h2)
  rw [if_neg h2]
  by_cases h3 : s.priv.energy_old = s.obj.energy
  · rw [if_pos h3, if_neg]
    exact fun hc => hc.2.2.1 h3
  rw [if_neg h3]
  by_cases h4 : (now - s.priv.energy_old_timespec) % 4294967296 = 0
  · rw [if_pos h4, if_neg]
    exact fun hc => hc.2.2.2.1 h4
  rw [if_neg h4]
  by_cases h5 : fl.sub s.priv.energy_old s.obj.energy < fl.tenth
  · rw [if_pos h5, if_neg]
    exact fun hc => absurd hc.2.2.2.2 (not_le.mpr h5)
  rw [if_neg h5, if_pos ⟨not_lt.mp h1, not_lt.mp h2, h3, h4, not_lt.mp h5⟩]

/-- C12, amended.  Whatever the rounding of the doubles,
`dkp_supply_calculate_rate` sets `energy_rate` to the computed value of
`(previous - current) * 3600 / elapsed` exactly when the current and the
previous energy are both non-negative and different, the elapsed seconds (a
`guint`) are not zero, and the computed difference `previous - current`, taken
with its sign, is not below the constant `0.1`; in every other case, and so
whenever the energy has risen or stayed the same, it leaves the rate as it is.
Nothing but the rate changes, and with exact arithmetic the function is
`dkp_supply_calculate_rate`. -/
theorem calculate_rate_signed_difference (fl : DoubleArith) (now : Int) (s : DkpSupply) :
    (dkp_supply_calculate_rate_double fl now s).obj.energy_rate =
      (if 0 ≤ s.obj.energy ∧ 0 ≤ s.priv.energy_old ∧ s.priv.energy_old ≠ s.obj.energy
          ∧ (now - s.priv.energy_old_timespec) % 4294967296 ≠ 0
          ∧ fl.tenth ≤ fl.sub s.priv.energy_old s.obj.energy then
        fl.div (fl.mul (fl.sub s.priv.energy_old s.obj.energy) 3600)
          (((now - s.priv.energy_old_timespec) % 4294967296 : Int) : ℚ)
       else s.obj.energy_rate)
    ∧ (s.priv.energy_old ≤ s.obj.energy →
        (dkp_supply_calculate_rate_double fl now s).obj.energy_rate = s.obj.energy_rate)
    ∧ dkp_supply_calculate_rate_double fl now s =
      { s with obj := { s.obj with
          energy_rate := (dkp_supply_calculate_rate_double fl now s).obj.energy_rate } }
    ∧ dkp_supply_calculate_rate_double exact_arith now s = dkp_supply_calculate_rate now s := by
  refine ⟨?_, ?_, ?_, rfl⟩
  · rw [calculate_rate_double_value]
    split_ifs <;> rfl
  · intro hle
    rw [calculate_rate_double_value, if_neg]
    intro hc
    exact absurd (lt_of_lt_of_le fl.tenth_pos hc.2.2.2.2)
      (not_lt.mpr (fl.sub_nonpos _ _ hle))
  · rw [calculate_rate_double_value]
    split_ifs <;> rfl

/-- C12, witness: with exact arithmetic, 30 seconds after a sample of 41 Wh an
energy of 40 Wh gives the rate 120, and 30 seconds after a sample of 40 Wh an
energy of 41 Wh leaves the rate at `-1`. -/
theorem calculate_rate_signed_difference_witness :
    (dkp_supply_calculate_rate_double exact_arith 1030 falling_energy_sample).obj.energy_rate
      = 120
    ∧ (dkp_supply_calculate_rate_double exact_arith 1030 rising_energy_sample).obj.energy_rate
      = -1 := by
  constructor
  · rw [(calculate_rate_signed_difference exact_arith 1030 falling_energy_sample).1]
    simp only [falling_energy_sample, fresh_battery, exact_arith]
    norm_num
  · exact (calculate_rate_signed_difference exact_arith 1030 rising_energy_sample).2.1
      (by simp only [rising_energy_sample]; norm_num)

/-- The rate taken from the hardware never exceeds 100,000, and a reading whose
millionth part is `0xffff` in absolute value gives `-1`: the refresh then stores
`-1` or the rate calculated from the kept energy sample. -/
theorem hardware_rate_tests (h : Helpers) (r : Sysfs) (s : DkpSupply)
    (hpresent : r.present = true) :
    hardware_rate r.current_now ≤ 100000
    ∧ (|r.current_now / 1000000| = 65535 →
        hardware_rate r.current_now = -1
        ∧ ((dkp_supply_refresh_battery h r s).obj.energy_rate = -1
          ∨ (dkp_supply_refresh_battery h r s).obj.energy_rate
            = (s.priv.energy_old - energy_reading r) * 3600
              / (((r.clock_rate - s.priv.energy_old_timespec) % 4294967296 : Int) : ℚ))) := by
  constructor
  · unfold hardware_rate
    dsimp only
    split_ifs with h1 h2 h2
    · norm_num
    · norm_num
    · norm_num
    · have := not_lt.mp h2
      norm_num at this
      exact this
  · intro hones
    have hhw : hardware_rate r.current_now = -1 := by
      unfold hardware_rate
      rw [hones]
      norm_num
    refine ⟨hhw, ?_⟩
    rw [refresh_battery_rate h r s hpresent, hhw]
    split_ifs
    · exact Or.inr rfl
    · exact Or.inl rfl

/-- C13.  In every refresh of a present battery in which the rate of the
hardware, `fabs (current_now / 1000000.0)`, equals `0xffff`: the rate is `-1`
when the test `energy_rate < 0` is reached, so the present path continues with
`dkp_supply_calculate_rate`, and after the refresh the rate is `-1` or the rate
calculated from the kept energy sample. -/
theorem ones_rate_is_unknown (h : Helpers) (r : Sysfs) (s : DkpSupply)
    (hpresent : r.present = true) (hones : |r.current_now / 1000000| = 65535) :
    (∀ s1 : DkpSupply,
      (read_charge r s1).obj.energy_rate = -1
      ∧ refresh_present r s1 =
          derive_values (status_to_state (g_strstrip r.status)) r.clock_sample
            (dkp_supply_calculate_rate r.clock_rate (read_charge r s1)))
    ∧ ((dkp_supply_refresh_battery h r s).obj.energy_rate = -1
        ∨ (dkp_supply_refresh_battery h r s).obj.energy_rate
          = (s.priv.energy_old - energy_reading r) * 3600
            / (((r.clock_rate - s.priv.energy_old_timespec) % 4294967296 : Int) : ℚ)) := by
  have hhw : hardware_rate r.current_now = -1 := by
    unfold hardware_rate
    rw [hones]
    norm_num
  constructor
  · intro s1
    have hrate : (read_charge r s1).obj.energy_rate = -1 := by
      rw [read_charge_rate, hhw]
    refine ⟨hrate, ?_⟩
    unfold refresh_present
    dsimp only
    rw [if_pos (by rw [hrate]; norm_num)]
  · rw [refresh_battery_rate h r s hpresent, hhw]
    split_ifs
    · exact Or.inr rfl
    · exact Or.inl rfl

/-- C13, witness: the first refresh of a battery whose `current_now` reads
65,535,000,000.  The rate is `-1` before the calculation and, as there is no
earlier energy sample, `-1` after the refresh. -/
theorem ones_rate_is_unknown_witness :
    |(rate_readings 65535000000).current_now / 1000000| = 65535
    ∧ (read_charge (rate_readings 65535000000) fresh_battery).obj.energy_rate = -1
    ∧ (dkp_supply_refresh_battery example_helpers (rate_readings 65535000000)
        fresh_battery).obj.energy_rate = -1 := by
  have hones : |(rate_readings 65535000000).current_now / 1000000| = 65535 := by
    simp only [rate_readings]
    norm_num [abs_of_pos]
  obtain ⟨h1, h2⟩ := ones_rate_is_unknown example_helpers (rate_readings 65535000000)
    fresh_battery rfl hones
  refine ⟨hones, (h1 fresh_battery).1, ?_⟩
  rcases h2 with h2 | h2
  · exact h2
  · rw [refresh_battery_rate _ _ _ rfl] at h2
    simp only [fresh_battery, energy_reading, rate_readings, scenario_readings] at h2
    norm_num [hardware_rate] at h2

/-- The test against `0xffff` is made on the rate, the reading of `current_now`
in millionths: a reading of 65,535,000,000 gives the rate `-1`, and a reading
of 65535 is stored as the rate 0.065535. -/
theorem ones_reading_is_stored :
    (dkp_supply_refresh_battery example_helpers (rate_readings 65535)
        fresh_battery).obj.energy_rate = 65535 / 1000000
    ∧ hardware_rate 65535 = 65535 / 1000000
    ∧ hardware_rate 65535000000 = -1 := by
  have h1 : hardware_rate 65535 = 65535 / 1000000 := by
    unfold hardware_rate
    norm_num [abs_of_pos]
  have h2 : hardware_rate 65535000000 = -1 := by
    unfold hardware_rate
    norm_num [abs_of_pos]
  refine ⟨?_, h1, h2⟩
  rw [refresh_battery_rate _ _ _ rfl]
  have hc : (rate_readings 65535).current_now = 65535 := rfl
  rw [hc, h1, if_neg]
  rintro ⟨hneg, -⟩
  norm_num at hneg

/-- C14, the failing input.  When `current_now` reads 150,000,000 (150 W in the
scale in which 10,000,000 is 10 W) the refresh stores the rate 150; the ceiling
is tested as `100*1000` against the rate in watts, so it is a ceiling of
100,000 W. -/
theorem rate_above_100_watts_is_stored :
    (dkp_supply_refresh_battery example_helpers (rate_readings 150000000)
        fresh_battery).obj.energy_rate = 150
    ∧ hardware_rate 10000000 = 10
    ∧ hardware_rate 150000000 = 150 := by
  have h1 : hardware_rate 150000000 = 150 := by
    unfold hardware_rate
    norm_num [abs_of_pos]
  have h2 : hardware_rate 10000000 = 10 := by
    unfold hardware_rate
    norm_num [abs_of_pos]
  refine ⟨?_, h2, h1⟩
  rw [refresh_battery_rate _ _ _ rfl]
  have hc : (rate_readings 150000000).current_now = 150000000 := rfl
  rw [hc, h1, if_neg]
  rintro ⟨hneg, -⟩
  norm_num at hneg

/-- C15, counterexample.  Two refreshes with the scenario readings leave the
battery discharging with the energy sample 40 Wh, taken at second 1000.  The
next refresh, 30 seconds later, reads the status `Charging`, the energy 39.5 Wh
and no usable rate from the hardware: it changes the state to charging and
stores the rate 60, calculated from the sample that was taken while discharging. -/
theorem fallback_rate_at_state_change :
    (refresh_sequence example_helpers
        [scenario_readings 60000000 "ACME", scenario_readings 60000000 "ACME"]
        fresh_battery).obj.state = DkpDeviceState.discharging
    ∧ (refresh_sequence example_helpers
        [scenario_readings 60000000 "ACME", scenario_readings 60000000 "ACME"]
        fresh_battery).priv.energy_old = 40
    ∧ hardware_rate transition_readings.current_now = -1
    ∧ (dkp_supply_refresh_battery example_helpers transition_readings
        (refresh_sequence example_helpers
          [scenario_readings 60000000 "ACME", scenario_readings 60000000 "ACME"]
          fresh_battery)).obj.state = DkpDeviceState.charging
    ∧ (dkp_supply_refresh_battery example_helpers transition_readings
        (refresh_sequence example_helpers
          [scenario_readings 60000000 "ACME", scenario_readings 60000000 "ACME"]
          fresh_battery)).obj.energy_rate = 60 := by
  have hseq : refresh_sequence example_helpers
      [scenario_readings 60000000 "ACME", scenario_readings 60000000 "ACME"] fresh_battery
      = dkp_supply_refresh_battery example_helpers (scenario_readings 60000000 "ACME")
          (dkp_supply_refresh_battery example_helpers (scenario_readings 60000000 "ACME")
            fresh_battery) := rfl
  have hdis : status_to_state (g_strstrip (scenario_readings 60000000 "ACME").status)
      = DkpDeviceState.discharging := by decide
  have hcha : status_to_state (g_strstrip transition_readings.status)
      = DkpDeviceState.charging := by decide
  have hen : energy_reading (scenario_readings 60000000 "ACME") = 40 := by
    simp only [energy_reading, scenario_readings]
    norm_num
  have hent : energy_reading transition_readings = 79 / 2 := by
    simp only [energy_reading, transition_readings, scenario_readings]
    norm_num
  have hhw : hardware_rate transition_readings.current_now = -1 := by
    simp only [hardware_rate, transition_readings]
    norm_num [abs_of_pos]
  obtain ⟨a1, -, -⟩ := refresh_battery_sample example_helpers
    (scenario_readings 60000000 "ACME") fresh_battery rfl
  obtain ⟨b1, b2, b3⟩ := refresh_battery_sample example_helpers
    (scenario_readings 60000000 "ACME")
    (dkp_supply_refresh_battery example_helpers (scenario_readings 60000000 "ACME")
      fresh_battery) rfl
  rw [a1, hdis, hen] at b2
  rw [hdis] at b1
  simp only [ne_eq, not_true_eq_false, if_false] at b2
  have b3' : (dkp_supply_refresh_battery example_helpers (scenario_readings 60000000 "ACME")
      (dkp_supply_refresh_battery example_helpers (scenario_readings 60000000 "ACME")
        fresh_battery)).priv.energy_old_timespec = 1000 := b3
  obtain ⟨c1, -, -⟩ := refresh_battery_sample example_helpers transition_readings
    (dkp_supply_refresh_battery example_helpers (scenario_readings 60000000 "ACME")
      (dkp_supply_refresh_battery example_helpers (scenario_readings 60000000 "ACME")
        fresh_battery)) rfl
  rw [hseq]
  refine ⟨b1, b2, hhw, c1.trans hcha, ?_⟩
  rw [refresh_battery_rate _ _ _ rfl, hhw, hent, b2, b3']
  have hclock : transition_readings.clock_rate = 1030 := rfl
  rw [hclock]
  norm_num

/-- C15, amended.  When the state read at a refresh of a present battery
differs from the stored state, that refresh drops the kept energy sample
(`energy_old` becomes `-1`), so the next refresh of the present battery
calculates no rate: its `energy_rate` is the rate of the hardware, or `-1`. -/
theorem no_fallback_rate_after_state_change (h : Helpers) (r1 r2 : Sysfs) (s : DkpSupply)
    (hpresent1 : r1.present = true) (hpresent2 : r2.present = true)
    (hchange : status_to_state (g_strstrip r1.status) ≠ s.obj.state) :
    (dkp_supply_refresh_battery h r1 s).priv.energy_old = -1
    ∧ (dkp_supply_refresh_battery h r2 (dkp_supply_refresh_battery h r1 s)).obj.energy_rate
        = hardware_rate r2.current_now := by
  obtain ⟨-, a2, -⟩ := refresh_battery_sample h r1 s hpresent1
  rw [if_pos (Ne.symm hchange)] at a2
  refine ⟨a2, ?_⟩
  rw [refresh_battery_rate h r2 _ hpresent2, a2, if_neg]
  rintro ⟨-, -, hold, -⟩
  norm_num at hold

/-- C15, witness: the state change of the counterexample, followed by one more
refresh with the same readings. -/
theorem no_fallback_rate_after_state_change_witness :
    (dkp_supply_refresh_battery example_helpers transition_readings
        (dkp_supply_refresh_battery example_helpers transition_readings
          (dkp_supply_refresh_battery example_helpers (scenario_readings 60000000 "ACME")
            fresh_battery))).obj.energy_rate
      = hardware_rate transition_readings.current_now :=
  (no_fallback_rate_after_state_change example_helpers transition_readings
    transition_readings
    (dkp_supply_refresh_battery example_helpers (scenario_readings 60000000 "ACME")
      fresh_battery)
    rfl rfl
    (by rw [(refresh_battery_sample example_helpers (scenario_readings 60000000 "ACME")
          fresh_battery rfl).1]; decide)).2

/-- The capacity that the coldplug block stores for positive readings. -/
theorem coldplug_capacity (h : Helpers) (r : Sysfs) (s : DkpSupply)
    (hfull : 0 < r.energy_full) (hdesign : 0 < r.energy_full_design) :
    (coldplug_values h r s).obj.capacity = Dbl.fin 100 := by
  have hf : (0 : ℚ) < r.energy_full / 1000000 := by positivity
  have hd : (0 : ℚ) < r.energy_full_design / 1000000 := by positivity
  show ((Dbl.div (r.energy_full_design / 1000000)
      (if r.energy_full / 1000000 > r.energy_full_design / 1000000
        then r.energy_full_design / 1000000 else r.energy_full / 1000000)).mulPos
      100).clamp_0_100 = Dbl.fin 100
  by_cases hgt : r.energy_full / 1000000 > r.energy_full_design / 1000000
  · rw [if_pos hgt]
    unfold Dbl.div
    rw [if_neg (ne_of_gt hd)]
    have hone : r.energy_full_design / 1000000 / (r.energy_full_design / 1000000) = 1 :=
      div_self (ne_of_gt hd)
    rw [hone]
    norm_num [Dbl.mulPos, Dbl.clamp_0_100, Dbl.ltQ, Dbl.gtQ]
  · rw [if_neg hgt]
    unfold Dbl.div
    rw [if_neg (ne_of_gt hf)]
    have hge : 1 ≤ r.energy_full_design / 1000000 / (r.energy_full / 1000000) := by
      rw [le_div_iff₀ hf]
      linarith [not_lt.mp hgt]
    have h100 : (100 : ℚ) ≤ r.energy_full_design / 1000000 / (r.energy_full / 1000000) * 100 := by
      linarith
    simp only [Dbl.mulPos, Dbl.clamp_0_100, Dbl.ltQ, Dbl.gtQ]
    have hnotneg : ¬ r.energy_full_design / 1000000 / (r.energy_full / 1000000) * 100 < 0 := by
      linarith
    simp only [hnotneg, decide_False, Bool.false_eq_true, if_false]
    by_cases hbig : 100 < r.energy_full_design / 1000000 / (r.energy_full / 1000000) * 100
    · simp [hbig]
    · have heq : r.energy_full_design / 1000000 / (r.energy_full / 1000000) * 100 = 100 :=
        le_antisymm (not_lt.mp hbig) h100
      simp [heq]

/-- C20.  For strictly positive readings of `energy_full` and
`energy_full_design`, the coldplug block stores the capacity 100, whatever the
two readings are: a refresh of a present battery without coldplug values ends
with `capacity = 100`, with `energy_full` at most `energy_full_design` after the
block. -/
theorem capacity_is_100 (h : Helpers) (r : Sysfs) (s : DkpSupply)
    (hcold : s.priv.has_coldplug_values = false)
    (hpresent : r.present = true)
    (hfull : 0 < r.energy_full) (hdesign : 0 < r.energy_full_design) :
    (dkp_supply_refresh_battery h r s).obj.capacity = Dbl.fin 100
    ∧ (coldplug_values h r s).obj.capacity = Dbl.fin 100
    ∧ (coldplug_values h r s).obj.energy_full ≤ (coldplug_values h r s).obj.energy_full_design := by
  refine ⟨?_, coldplug_capacity h r s hfull hdesign, ?_⟩
  · rw [refresh_battery_present h r s hpresent, save_history_obj,
      (refresh_present_static _ _).1, hcold]
    exact coldplug_capacity h r _ hfull hdesign
  · show (if r.energy_full / 1000000 > r.energy_full_design / 1000000
        then r.energy_full_design / 1000000 else r.energy_full / 1000000)
      ≤ r.energy_full_design / 1000000
    split_ifs with hgt
    · exact le_refl _
    · exact not_lt.mp hgt

/-- C20, witness: the scenario readings with a design energy of 60 Wh and of
45 Wh both give the capacity 100. -/
theorem capacity_is_100_witness :
    (dkp_supply_refresh_battery example_helpers (scenario_readings 60000000 "ACME")
        fresh_battery).obj.capacity = Dbl.fin 100
    ∧ (dkp_supply_refresh_battery example_helpers (scenario_readings 45000000 "ACME")
        fresh_battery).obj.capacity = Dbl.fin 100 :=
  ⟨(capacity_is_100 example_helpers (scenario_readings 60000000 "ACME") fresh_battery
      rfl rfl (by norm_num [scenario_readings]) (by norm_num [scenario_readings])).1,
   (capacity_is_100 example_helpers (scenario_readings 45000000 "ACME") fresh_battery
      rfl rfl (by norm_num [scenario_readings]) (by norm_num [scenario_readings])).1⟩

/-! ## Battery: the poll timer -/

/-- The present path leaves the timer id and the type alone. -/
theorem refresh_present_timer (r : Sysfs) (s : DkpSupply) :
    (refresh_present r s).priv.poll_timer_id = s.priv.poll_timer_id
    ∧ (refresh_present r s).obj.type = s.obj.type := by
  unfold refresh_present
  dsimp only
  split_ifs
  · obtain ⟨rate, hr⟩ := calculate_rate_frame r.clock_rate (read_charge r s)
    rw [hr]
    exact ⟨rfl, rfl⟩
  · exact ⟨rfl, rfl⟩

/-- The battery refresh leaves the timer id alone, and a battery stays a battery. -/
theorem refresh_battery_timer (h : Helpers) (r : Sysfs) (s : DkpSupply)
    (htype : s.obj.type = DkpDeviceType.battery) :
    (dkp_supply_refresh_battery h r s).priv.poll_timer_id = s.priv.poll_timer_id
    ∧ (dkp_supply_refresh_battery h r s).obj.type = DkpDeviceType.battery := by
  cases hp : r.present
  · rw [refresh_battery_absent h r s hp]
    exact ⟨rfl, rfl⟩
  · rw [refresh_battery_present h r s hp]
    obtain ⟨t1, t2⟩ := refresh_present_timer r
      (if s.priv.has_coldplug_values = true then
        { s with obj := { s.obj with is_present := true } }
      else coldplug_values h r { s with obj := { s.obj with is_present := true } })
    show (refresh_present r _).priv.poll_timer_id = _ ∧ (refresh_present r _).obj.type = _
    rw [t1, t2]
    cases s.priv.has_coldplug_values
    · exact ⟨rfl, htype⟩
    · exact ⟨rfl, htype⟩

/-- The start of `dkp_supply_refresh`: the timer id is zero afterwards and the
old timer is gone from the main loop. -/
theorem refresh_start_fields (clock : Int) (d : SupplyDevice) :
    (refresh_start clock d).supply.obj.type = d.supply.obj.type
    ∧ (refresh_start clock d).supply.priv.poll_timer_id = 0
    ∧ (refresh_start clock d).loop.timeouts = timeouts_after_cancel d
    ∧ (refresh_start clock d).loop.next_id = d.loop.next_id := by
  unfold refresh_start timeouts_after_cancel
  by_cases hp : d.supply.priv.poll_timer_id > 0
  · rw [if_pos hp, if_pos hp]
    exact ⟨rfl, rfl, rfl, rfl⟩
  · rw [if_neg hp, if_neg hp]
    exact ⟨rfl, by show d.supply.priv.poll_timer_id = 0; omega, rfl, rfl⟩

/-- What `dkp_supply_refresh` does to the poll timer of a line-power device or
a battery: it returns, the old timer is removed, and a new source is attached
exactly when the device is a battery that is charging or discharging. -/
theorem refresh_timer (h : Helpers) (r : RefreshReadings) (d : SupplyDevice)
    (htype : d.supply.obj.type = DkpDeviceType.line_power
      ∨ d.supply.obj.type = DkpDeviceType.battery) :
    ∃ ret d', dkp_supply_refresh h r d = some (ret, d')
      ∧ (d'.supply.obj.type = DkpDeviceType.line_power
        ∨ d'.supply.obj.type = DkpDeviceType.battery)
      ∧ ((wants_poll d'.supply
          ∧ d'.loop.timeouts = timeouts_after_cancel d ++ [d.loop.next_id]
          ∧ d'.supply.priv.poll_timer_id = d.loop.next_id
          ∧ d'.loop.next_id = d.loop.next_id + 1)
        ∨ (¬ wants_poll d'.supply
          ∧ d'.loop.timeouts = timeouts_after_cancel d
          ∧ d'.supply.priv.poll_timer_id = 0
          ∧ d'.loop.next_id = d.loop.next_id))
      ∧ (r.battery.present = false →
          (∀ o, (h.dkp_object_clear o).state = DkpDeviceState.unknown) →
          ¬ wants_poll d'.supply) := by
  -- the device after the removal of the old timer and the update of the time
  obtain ⟨d0, hd0def, hobj, hpid, hloop, hnext⟩ :
      ∃ d0 : SupplyDevice, refresh_start r.clock_update d = d0
        ∧ d0.supply.obj.type = d.supply.obj.type
        ∧ d0.supply.priv.poll_timer_id = 0
        ∧ d0.loop.timeouts = timeouts_after_cancel d
        ∧ d0.loop.next_id = d.loop.next_id :=
    ⟨_, rfl, refresh_start_fields r.clock_update d⟩
  have hd0 : dkp_supply_refresh h r d =
      (match d0.supply.obj.type with
        | DkpDeviceType.line_power =>
          some (true, { d0 with supply := dkp_supply_refresh_line_power r.online d0.supply })
        | DkpDeviceType.battery =>
          if (dkp_supply_refresh_battery h r.battery d0.supply).obj.state
                = DkpDeviceState.charging
              ∨ (dkp_supply_refresh_battery h r.battery d0.supply).obj.state
                = DkpDeviceState.discharging then
            some (true,
              { supply := { dkp_supply_refresh_battery h r.battery d0.supply with
                  priv := { (dkp_supply_refresh_battery h r.battery d0.supply).priv with
                    poll_timer_id := (g_timeout_add_seconds d0.loop).1 } }
                loop := (g_timeout_add_seconds d0.loop).2 })
          else some (true,
            { supply := dkp_supply_refresh_battery h r.battery d0.supply, loop := d0.loop })
        | _ => none) := by
    rw [← hd0def]
    rfl
  rw [hd0]
  rcases htype with hlp | hbat
  · rw [← hobj] at hlp
    rw [hlp]
    refine ⟨true, _, rfl, Or.inl hlp, Or.inr ⟨?_, hloop, hpid, hnext⟩, ?_⟩
    · rintro ⟨hb, -⟩
      have : (dkp_supply_refresh_line_power r.online d0.supply).obj.type
          = d0.supply.obj.type := rfl
      rw [this, hlp] at hb
      cases hb
    · rintro - - ⟨hb, -⟩
      have : (dkp_supply_refresh_line_power r.online d0.supply).obj.type
          = d0.supply.obj.type := rfl
      rw [this, hlp] at hb
      cases hb
  · rw [← hobj] at hbat
    rw [hbat]
    obtain ⟨tpid, ttype⟩ := refresh_battery_timer h r.battery d0.supply hbat
    have habsent : r.battery.present = false →
        (∀ o, (h.dkp_object_clear o).state = DkpDeviceState.unknown) →
        (dkp_supply_refresh_battery h r.battery d0.supply).obj.state
          = DkpDeviceState.unknown := by
      intro hp hclear
      rw [refresh_battery_absent h r.battery d0.supply hp]
      exact hclear _
    by_cases hact : (dkp_supply_refresh_battery h r.battery d0.supply).obj.state
          = DkpDeviceState.charging
        ∨ (dkp_supply_refresh_battery h r.battery d0.supply).obj.state
          = DkpDeviceState.discharging
    · simp only [hact, if_true]
      refine ⟨true, _, rfl, Or.inr ttype, Or.inl ⟨⟨ttype, hact⟩, ?_, ?_, ?_⟩, ?_⟩
      · show d0.loop.timeouts ++ [d0.loop.next_id] = _
        rw [hloop, hnext]
      · exact hnext
      · show d0.loop.next_id + 1 = _
        rw [hnext]
      · intro hp hclear
        have hu := habsent hp hclear
        rw [hu] at hact
        rcases hact with hc | hc <;> cases hc
    · simp only [hact, if_false]
      refine ⟨true, _, rfl, Or.inr ttype, Or.inr ⟨?_, hloop, ?_, hnext⟩, ?_⟩
      · exact fun hw => hact hw.2
      · exact tpid.trans hpid
      · exact fun _ _ hw => hact hw.2

/-- A refresh of a device whose timer is consistent leaves it consistent, with a
timer pending exactly when the test for polling holds. -/
theorem refresh_keeps_timer (h : Helpers) (r : RefreshReadings) (d : SupplyDevice)
    (hinv : TimerConsistent d) :
    ∃ ret d', dkp_supply_refresh h r d = some (ret, d')
      ∧ TimerConsistent d' ∧ TimerAsState d' ∧ d'.loop.timeouts.length ≤ 1
      ∧ (r.battery.present = false →
          (∀ o, (h.dkp_object_clear o).state = DkpDeviceState.unknown) →
          d'.loop.timeouts = []) := by
  obtain ⟨hto, hlt, htype⟩ := hinv
  obtain ⟨ret, d', hres, htype', hcase, habs⟩ := refresh_timer h r d htype
  have hcancel : timeouts_after_cancel d = [] := by
    unfold timeouts_after_cancel
    by_cases hp : d.supply.priv.poll_timer_id > 0
    · rw [if_pos hp]
      rw [if_pos hp] at hto
      simp [g_source_remove, hto]
    · rw [if_neg hp]
      rw [if_neg hp] at hto
      exact hto
  refine ⟨ret, d', hres, ?_⟩
  rcases hcase with ⟨hw, h1, h2, h3⟩ | ⟨hw, h1, h2, h3⟩
  · rw [hcancel] at h1
    have hpos : d'.supply.priv.poll_timer_id > 0 := by omega
    refine ⟨⟨?_, ?_, htype'⟩, ?_, ?_, ?_⟩
    · rw [if_pos hpos, h1, h2]
      rfl
    · omega
    · exact ⟨fun _ => hw, fun _ => by rw [h1]; simp⟩
    · rw [h1]
      simp
    · exact fun hp hclear => absurd hw (habs hp hclear)
  · rw [hcancel] at h1
    refine ⟨⟨?_, ?_, htype'⟩, ?_, ?_, ?_⟩
    · rw [h1, h2]
      rfl
    · omega
    · exact ⟨fun hne => absurd h1 hne, fun hw' => absurd hw' hw⟩
    · rw [h1]
      simp
    · exact fun _ _ => h1

/-- One event on a device whose timer is consistent. -/
theorem event_keeps_timer (h : Helpers) (d : SupplyDevice) (e : SupplyEvent)
    (hinv : TimerConsistent d) :
    ∃ d', supply_event h d e = some d' ∧ TimerConsistent d'
      ∧ (TimerAsState d → TimerAsState d') := by
  cases e with
  | refresh r =>
    obtain ⟨ret, d', hres, hc, ha, -, -⟩ := refresh_keeps_timer h r d hinv
    refine ⟨d', ?_, hc, fun _ => ha⟩
    show (match dkp_supply_refresh h r d with
      | none => none
      | some (_, d) => some d) = some d'
    rw [hres]
  | timeout id r =>
    simp only [supply_event]
    by_cases hid : id ∈ d.loop.timeouts
    · rw [if_pos hid]
      obtain ⟨hto, hlt, htype⟩ := hinv
      -- the source that comes due is the poll timer of the device
      have hpid : d.supply.priv.poll_timer_id > 0 ∧ id = d.supply.priv.poll_timer_id := by
        by_cases hp : d.supply.priv.poll_timer_id > 0
        · rw [hto, if_pos hp] at hid
          exact ⟨hp, by simpa using hid⟩
        · rw [hto, if_neg hp] at hid
          cases hid
      obtain ⟨hp, rfl⟩ := hpid
      rw [if_pos hp] at hto
      obtain ⟨ret, d', hres, htype', hcase, -⟩ := refresh_timer h r
        { d with supply := { d.supply with
            priv := { d.supply.priv with poll_timer_id := 0 } } } htype
      have hcancel : timeouts_after_cancel
          { d with supply := { d.supply with
              priv := { d.supply.priv with poll_timer_id := 0 } } }
          = [d.supply.priv.poll_timer_id] := by
        unfold timeouts_after_cancel
        rw [if_neg (by simp)]
        exact hto
      unfold dkp_supply_poll_battery
      dsimp only
      rw [hres]
      dsimp only
      refine ⟨_, rfl, ?_⟩
      rcases hcase with ⟨hw, h1, h2, h3⟩ | ⟨hw, h1, h2, h3⟩
      · rw [hcancel] at h1
        have hne : d.loop.next_id ≠ d.supply.priv.poll_timer_id := by
          have : d.supply.priv.poll_timer_id < d.loop.next_id := hlt
          omega
        have hrem : (g_source_remove d'.loop d.supply.priv.poll_timer_id).timeouts
            = [d.loop.next_id] := by
          unfold g_source_remove
          rw [h1]
          simp [hne]
        have hnext : d.loop.next_id = d'.supply.priv.poll_timer_id := h2.symm
        have hpos : d'.supply.priv.poll_timer_id > 0 := by
          have : d.supply.priv.poll_timer_id < d.loop.next_id := hlt
          omega
        refine ⟨⟨?_, ?_, htype'⟩, fun _ => ⟨fun _ => hw, fun _ => ?_⟩⟩
        · show (g_source_remove d'.loop d.supply.priv.poll_timer_id).timeouts = _
          rw [hrem, if_pos hpos, hnext]
        · show d'.supply.priv.poll_timer_id < d'.loop.next_id
          have h3' : d'.loop.next_id = d.loop.next_id + 1 := h3
          omega
        · show (g_source_remove d'.loop d.supply.priv.poll_timer_id).timeouts ≠ []
          rw [hrem]
          simp
      · rw [hcancel] at h1
        have hrem : (g_source_remove d'.loop d.supply.priv.poll_timer_id).timeouts = [] := by
          unfold g_source_remove
          rw [h1]
          simp
        refine ⟨⟨?_, ?_, htype'⟩, fun _ => ⟨fun hne => ?_, fun hw' => absurd hw' hw⟩⟩
        · show (g_source_remove d'.loop d.supply.priv.poll_timer_id).timeouts = _
          rw [hrem, h2]
          rfl
        · show d'.supply.priv.poll_timer_id < d'.loop.next_id
          have h3' : d'.loop.next_id = d.loop.next_id := h3
          have : d.supply.priv.poll_timer_id < d.loop.next_id := hlt
          omega
        · exact absurd hrem hne
    · rw [if_neg hid]
      exact ⟨d, rfl, hinv, fun ha => ha⟩

/-- A consistent timer means at most one source. -/
theorem consistent_at_most_one (d : SupplyDevice) (hinv : TimerConsistent d) :
    d.loop.timeouts.length ≤ 1 := by
  rw [hinv.1]
  split_ifs <;> simp

/-- C16.  Start from a device (line power or battery) whose poll timer is
consistent, as it is before the first refresh, and let any sequence of explicit
refreshes and of timeout sources coming due be handled.  Every call returns, at
most one poll timer is pending afterwards, and after each further refresh a
timer is pending exactly when the device is a battery whose state is charging
or discharging; this relation, once it holds, is kept by every event.  A
line-power device has no timer pending, and neither has a battery that reads as
absent when `dkp_object_clear` leaves the state unknown. -/
theorem poll_timer_pending (h : Helpers) (d : SupplyDevice) (events : List SupplyEvent)
    (hinv : TimerConsistent d) :
    ∃ d', supply_events h d events = some d'
      ∧ TimerConsistent d'
      ∧ d'.loop.timeouts.length ≤ 1
      ∧ (TimerAsState d → TimerAsState d')
      ∧ ∀ r, ∃ ret d'', dkp_supply_refresh h r d' = some (ret, d'')
          ∧ d''.loop.timeouts.length ≤ 1
          ∧ (d''.loop.timeouts ≠ [] ↔
              (d''.supply.obj.type = DkpDeviceType.battery
                ∧ (d''.supply.obj.state = DkpDeviceState.charging
                  ∨ d''.supply.obj.state = DkpDeviceState.discharging)))
          ∧ (d''.supply.obj.type = DkpDeviceType.line_power → d''.loop.timeouts = [])
          ∧ (r.battery.present = false →
              (∀ o, (h.dkp_object_clear o).state = DkpDeviceState.unknown) →
              d''.loop.timeouts = []) := by
  induction events generalizing d with
  | nil =>
    refine ⟨d, rfl, hinv, consistent_at_most_one d hinv, fun ha => ha, fun r => ?_⟩
    obtain ⟨ret, d'', hres, -, ha, hlen, habs⟩ := refresh_keeps_timer h r d hinv
    refine ⟨ret, d'', hres, hlen, ha, ?_, habs⟩
    intro hlp
    by_contra hne
    have hw := (ha.mp hne).1
    rw [hlp] at hw
    cases hw
  | cons e rest ih =>
    obtain ⟨d1, hstep, hinv1, hkeep1⟩ := event_keeps_timer h d e hinv
    obtain ⟨d', hrun, hc, hlen, hkeep, hrefresh⟩ := ih d1 hinv1
    refine ⟨d', ?_, hc, hlen, fun ha => hkeep (hkeep1 ha), hrefresh⟩
    show (match supply_event h d e with
      | none => none
      | some d => supply_events h d rest) = some d'
    rw [hstep]
    exact hrun

/-- C16, witness: a fresh battery is refreshed with the scenario readings, its
poll timer comes due, and it is refreshed again. -/
theorem poll_timer_pending_witness :
    ∃ d', supply_events example_helpers fresh_supply_device
        [SupplyEvent.refresh scenario_refresh, SupplyEvent.timeout 1 scenario_refresh,
         SupplyEvent.refresh scenario_refresh] = some d'
      ∧ d'.loop.timeouts.length ≤ 1 :=
  (poll_timer_pending example_helpers fresh_supply_device
    [SupplyEvent.refresh scenario_refresh, SupplyEvent.timeout 1 scenario_refresh,
     SupplyEvent.refresh scenario_refresh]
    ⟨rfl, by decide, Or.inr rfl⟩).imp (fun _ hd => ⟨hd.1, hd.2.2.1⟩)

/-! ## Backlight: the aggregate read -/

/-- C17, the failing input.  On the group of two devices of maximum 100 whose
brightness attributes read 10 and 20, `up_kbd_backlight_get_brightness` answers
the invocation twice: with the error for different brightnesses, and then with
the value 10.  A device whose read fails gets the error for the read, and
again the completion follows (here with the value -1). -/
theorem get_brightness_answers_twice :
    up_kbd_backlight_get_brightness example_files_10_20 group_100
      = [KbdReply.return_error KbdError.different_brightnesses,
         KbdReply.complete_get_brightness 10]
    ∧ up_kbd_backlight_get_brightness example_files
        { devices := [{ name := "a::kbd_backlight", fd := -1, fd_hw_changed := -1,
                        max_brightness := 100 }]
          max_brightness := 100 }
      = [KbdReply.return_error (KbdError.reading_brightness "a::kbd_backlight"),
         KbdReply.complete_get_brightness (-1)]
    ∧ up_kbd_backlight_get_brightness example_files_100 group_100
      = [KbdReply.complete_get_brightness 100] := by
  decide

/-! ## Enumerator: removal and parent id -/

/-- C18, the failing input.  `BAT0` is known, with its object in the sibling
array of its parent `PNP0C0A:00`.  An `add` arrives for a device of the same
name below `PNP0C0A:01`: the remove made up for the old entry takes it out of
the registry and emits `device-removed`, but looks for it in the sibling array
of the parent of the new device, so the old object stays in the sibling index.
The same holds when the `remove` event itself carries that device. -/
theorem stale_entry_stays_in_sibling_index :
    in_sibling_index enumerator_with_bat0 (GObject.up_device (supply_device bat0)) = true
    ∧ (uevent_signal_handler_cb example_platform enumerator_with_bat0 "add" bat0_moved).1.known
        = [("BAT0", GObject.up_device (supply_device bat0_moved))]
    ∧ signals_of (uevent_signal_handler_cb example_platform enumerator_with_bat0 "add"
          bat0_moved).2
        = [Effect.device_removed (supply_device bat0),
           Effect.device_added (supply_device bat0_moved)]
    ∧ in_sibling_index
        (uevent_signal_handler_cb example_platform enumerator_with_bat0 "add" bat0_moved).1
        (GObject.up_device (supply_device bat0)) = true
    ∧ (uevent_signal_handler_cb example_platform enumerator_with_bat0 "remove"
          bat0_moved).1.known = []
    ∧ in_sibling_index
        (uevent_signal_handler_cb example_platform enumerator_with_bat0 "remove" bat0_moved).1
        (GObject.up_device (supply_device bat0)) = true
    ∧ in_sibling_index
        (uevent_signal_handler_cb example_platform enumerator_with_bat0 "remove" bat0).1
        (GObject.up_device (supply_device bat0)) = false := by
  decide

/-- C19.  `device_parent_id` is defined for every device (the chain of
ancestors is finite) and is the sysfs path of the nearest ancestor that is
neither a `hid` nor an `input` device nor a USB node of type `usb_interface`;
there is no id when the device has no parent, when no such ancestor exists, or
when that ancestor is in the `platform` subsystem. -/
theorem device_parent_id_is_nearest_ancestor (d : GUdevDevice) :
    device_parent_id d = nearest_ancestor_id d := by
  induction d with
  | root p s n t => rfl
  | child p s n t parent ih =>
    unfold device_parent_id nearest_ancestor_id ancestors
    by_cases hplat : parent.get_subsystem = some "platform"
    · have hpass : is_passed_through parent = false := by
        simp [is_passed_through, hplat]
      simp [hplat, hpass, List.find?]
    · by_cases hskip : parent.get_subsystem = some "hid" ∨ parent.get_subsystem = some "input"
      · have hpass : is_passed_through parent = true := by
          rcases hskip with hh | hh <;> simp [is_passed_through, hh]
        rw [if_neg hplat, if_pos hskip, ih]
        simp [nearest_ancestor_id, List.find?, hpass]
      · by_cases husb : parent.get_subsystem = some "usb"
            ∧ parent.get_devtype = some "usb_interface"
        · have hpass : is_passed_through parent = true := by
            simp [is_passed_through, husb.1, husb.2]
          rw [if_neg hplat, if_neg hskip, if_pos husb, ih]
          simp [nearest_ancestor_id, List.find?, hpass]
        · have hpass : is_passed_through parent = false := by
            have h1 : ¬ parent.get_subsystem = some "hid" := fun hh => hskip (Or.inl hh)
            have h2 : ¬ parent.get_subsystem = some "input" := fun hh => hskip (Or.inr hh)
            simp only [is_passed_through, h1, h2, decide_False, Bool.false_or,
              Bool.and_eq_false_iff, decide_eq_false_iff_not]
            by_cases hu : parent.get_subsystem = some "usb"
            · exact Or.inr (fun ht => husb ⟨hu, ht⟩)
            · exact Or.inl hu
          rw [if_neg hplat, if_neg hskip, if_neg husb]
          simp [List.find?, hpass, hplat]

/-- The parent id of the battery of a wireless keyboard is the USB device. -/
theorem keyboard_battery_parent_id :
    device_parent_id keyboard_battery = some "/sys/devices/pci0/usb1/1-2" := by
  decide

/-! ## Enumerator: the registry and the announcements -/

theorem steal_of_absent {α : Type} (table : List (String × α)) (key : String)
    (h : g_hash_table_lookup table key = none) : g_hash_table_steal table key = table := by
  induction table with
  | nil => rfl
  | cons e rest ih =>
    obtain ⟨k, v⟩ := e
    unfold g_hash_table_lookup at h
    by_cases hk : k = key
    · rw [if_pos hk] at h
      cases h
    · rw [if_neg hk] at h
      unfold g_hash_table_steal at ih ⊢
      rw [List.filter_cons_of_pos (by simpa using hk), ih h]

theorem lookup_steal {α : Type} (table : List (String × α)) (key : String) :
    g_hash_table_lookup (g_hash_table_steal table key) key = none := by
  induction table with
  | nil => rfl
  | cons e rest ih =>
    obtain ⟨k, v⟩ := e
    unfold g_hash_table_steal at ih ⊢
    by_cases hk : k = key
    · rw [List.filter_cons_of_neg (by simpa using hk)]
      exact ih
    · rw [List.filter_cons_of_pos (by simpa using hk)]
      unfold g_hash_table_lookup
      rw [if_neg hk]
      exact ih

theorem lookup_none_of_not_key {α : Type} (table : List (String × α)) (key : String)
    (h : key ∉ table.map Prod.fst) : g_hash_table_lookup table key = none := by
  induction table with
  | nil => rfl
  | cons e rest ih =>
    obtain ⟨k, v⟩ := e
    simp only [List.map_cons, List.mem_cons, not_or] at h
    unfold g_hash_table_lookup
    rw [if_neg (fun hk => h.1 hk.symm)]
    exact ih h.2

theorem not_key_of_lookup_none {α : Type} (table : List (String × α)) (key : String)
    (h : g_hash_table_lookup table key = none) : key ∉ table.map Prod.fst := by
  induction table with
  | nil => simp
  | cons e rest ih =>
    obtain ⟨k, v⟩ := e
    unfold g_hash_table_lookup at h
    by_cases hk : k = key
    · rw [if_pos hk] at h
      cases h
    · rw [if_neg hk] at h
      simp only [List.map_cons, List.mem_cons, not_or]
      exact ⟨fun hh => hk hh.symm, ih h⟩

theorem keys_nodup_steal {α : Type} (table : List (String × α)) (key : String)
    (h : (table.map Prod.fst).Nodup) : ((g_hash_table_steal table key).map Prod.fst).Nodup := by
  unfold g_hash_table_steal
  exact List.Nodup.sublist (List.Sublist.map _ (List.filter_sublist _)) h

/-- In a table with distinct keys, the entry found for a key and the table
without the key make up the table. -/
theorem perm_steal {α : Type} (table : List (String × α)) (key : String) (value : α)
    (hnodup : (table.map Prod.fst).Nodup)
    (hfound : g_hash_table_lookup table key = some value) :
    table.Perm ((key, value) :: g_hash_table_steal table key) := by
  induction table with
  | nil => cases hfound
  | cons e rest ih =>
    obtain ⟨k, v⟩ := e
    simp only [List.map_cons, List.nodup_cons] at hnodup
    unfold g_hash_table_lookup at hfound
    by_cases hk : k = key
    · rw [if_pos hk] at hfound
      cases hfound
      subst hk
      have habsent : g_hash_table_lookup rest k = none :=
        lookup_none_of_not_key rest k hnodup.1
      have hrest := steal_of_absent rest k habsent
      unfold g_hash_table_steal at hrest ⊢
      rw [List.filter_cons_of_neg (by simp), hrest]
    · rw [if_neg hk] at hfound
      have hperm := ih hnodup.2 hfound
      unfold g_hash_table_steal at hperm ⊢
      rw [List.filter_cons_of_pos (by simpa using hk)]
      exact (List.Perm.cons _ hperm).trans (List.Perm.swap _ _ _)

/-- The sibling events bring no device in and take none out. -/
theorem announce_sibling_events (up_dev : Option UpDevice) (obj : GObject)
    (l : List GObject) (acc : List UpDevice) :
    (sibling_events up_dev obj l).foldl announce acc = acc := by
  induction l with
  | nil => rfl
  | cons x rest ih =>
    unfold sibling_events
    rw [List.foldl_append, List.foldl_append]
    cases up_dev <;> cases x <;> exact ih

/-- The registry and the announcements after the branch that adds a new device. -/
theorem add_new_registry (p : Platform) (self : UpEnumeratorUdev) (d : GUdevDevice)
    (acc : List UpDevice) :
    (∃ u, device_new p d = some u
        ∧ (uevent_add_new p self d).1.known
          = g_hash_table_insert self.known (device_key d) (GObject.up_device u)
        ∧ (uevent_add_new p self d).2.foldl announce acc = u :: acc)
    ∨ (∃ g, (uevent_add_new p self d).1.known
          = g_hash_table_insert self.known (device_key d) (GObject.udev_device g)
        ∧ (uevent_add_new p self d).2.foldl announce acc = acc) := by
  unfold uevent_add_new
  cases hnew : device_new p d with
  | none =>
    right
    refine ⟨d, ?_⟩
    cases hp : device_parent_id d with
    | none => exact ⟨rfl, rfl⟩
    | some parent_id =>
      dsimp only
      cases hl : g_hash_table_lookup self.siblings parent_id with
      | none => exact ⟨rfl, rfl⟩
      | some devices =>
        refine ⟨rfl, ?_⟩
        show (sibling_events none _ devices ++ []).foldl announce acc = acc
        rw [List.append_nil, announce_sibling_events]
  | some u =>
    left
    refine ⟨u, rfl, ?_⟩
    cases hp : device_parent_id d with
    | none => exact ⟨rfl, rfl⟩
    | some parent_id =>
      dsimp only
      cases hl : g_hash_table_lookup self.siblings parent_id with
      | none => exact ⟨rfl, rfl⟩
      | some devices =>
        refine ⟨rfl, ?_⟩
        show (sibling_events (some u) _ devices ++ [Effect.device_added u]).foldl announce acc
          = u :: acc
        rw [List.foldl_append, announce_sibling_events]
        rfl

/-- Adding a device under a key that the registry does not hold keeps the keys
distinct and the announcements equal to the classified objects. -/
theorem add_new_keeps_registry (p : Platform) (self : UpEnumeratorUdev) (d : GUdevDevice)
    (acc : List UpDevice)
    (habsent : g_hash_table_lookup self.known (device_key d) = none)
    (hnodup : (self.known.map Prod.fst).Nodup)
    (hperm : acc.Perm (registered_devices self)) :
    ((uevent_add_new p self d).1.known.map Prod.fst).Nodup
    ∧ ((uevent_add_new p self d).2.foldl announce acc).Perm
        (registered_devices (uevent_add_new p self d).1) := by
  have hkey := not_key_of_lookup_none self.known (device_key d) habsent
  have hsteal := steal_of_absent self.known (device_key d) habsent
  rcases add_new_registry p self d acc with ⟨u, -, hknown, hann⟩ | ⟨g, hknown, hann⟩
  · unfold registered_devices
    rw [hknown, hann]
    unfold g_hash_table_insert
    rw [hsteal]
    refine ⟨?_, ?_⟩
    · simp only [List.map_cons, List.nodup_cons]
      exact ⟨hkey, hnodup⟩
    · rw [List.filterMap_cons_some (by rfl)]
      exact List.Perm.cons _ hperm
  · unfold registered_devices
    rw [hknown, hann]
    unfold g_hash_table_insert
    rw [hsteal]
    refine ⟨?_, ?_⟩
    · simp only [List.map_cons, List.nodup_cons]
      exact ⟨hkey, hnodup⟩
    · rw [List.filterMap_cons_none (by rfl)]
      exact hperm

/-- The branch for `remove` keeps the keys distinct and the announcements equal
to the classified objects, and leaves the key free. -/
theorem remove_keeps_registry (self : UpEnumeratorUdev) (d : GUdevDevice)
    (acc : List UpDevice)
    (hnodup : (self.known.map Prod.fst).Nodup)
    (hperm : acc.Perm (registered_devices self)) :
    ((uevent_remove self d).1.known.map Prod.fst).Nodup
    ∧ ((uevent_remove self d).2.foldl announce acc).Perm
        (registered_devices (uevent_remove self d).1)
    ∧ g_hash_table_lookup (uevent_remove self d).1.known (device_key d) = none := by
  unfold uevent_remove
  dsimp only
  cases hl : g_hash_table_lookup self.known (device_key d) with
  | none => exact ⟨hnodup, hperm, hl⟩
  | some obj =>
    dsimp only
    refine ⟨keys_nodup_steal _ _ hnodup, ?_, lookup_steal _ _⟩
    have hsplit := perm_steal self.known (device_key d) obj hnodup hl
    have hreg : (registered_devices self).Perm
        (List.filterMap (fun e : String × GObject =>
            match e.2 with
            | GObject.up_device d => some d
            | GObject.udev_device _ => none)
          ((device_key d, obj) :: g_hash_table_steal self.known (device_key d))) :=
      List.Perm.filterMap _ hsplit
    cases obj with
    | udev_device g =>
      rw [List.filterMap_cons_none (by rfl)] at hreg
      exact hperm.trans hreg
    | up_device o =>
      rw [List.filterMap_cons_some (by rfl)] at hreg
      have hall := hperm.trans hreg
      have hmem : o ∈ acc := hall.symm.subset (List.mem_cons_self _ _)
      have herase : acc.Perm (o :: acc.erase o) := List.perm_cons_erase hmem
      exact List.Perm.cons_inv (herase.symm.trans hall)

/-- One call of the handler keeps the keys of the registry distinct and the
announcements equal to the classified objects. -/
theorem handler_keeps_registry (p : Platform) (self : UpEnumeratorUdev) (action : String)
    (d : GUdevDevice) (acc : List UpDevice)
    (hnodup : (self.known.map Prod.fst).Nodup)
    (hperm : acc.Perm (registered_devices self)) :
    ((uevent_signal_handler_cb p self action d).1.known.map Prod.fst).Nodup
    ∧ ((uevent_signal_handler_cb p self action d).2.foldl announce acc).Perm
        (registered_devices (uevent_signal_handler_cb p self action d).1) := by
  unfold uevent_signal_handler_cb
  by_cases hact : action = "change" ∨ action = "add"
  · rw [if_pos hact]
    cases hl : g_hash_table_lookup self.known (device_key d) with
    | none => exact add_new_keeps_registry p self d acc hl hnodup hperm
    | some obj =>
      cases obj with
      | udev_device g => exact ⟨hnodup, hperm⟩
      | up_device o =>
        dsimp only
        by_cases hstale : action = "add" ∧ d.get_sysfs_path ≠ o.native.get_sysfs_path
        · rw [if_pos hstale]
          obtain ⟨r1, r2, r3⟩ := remove_keeps_registry self d acc hnodup hperm
          have hadd := add_new_keeps_registry p (uevent_remove self d).1 d
            ((uevent_remove self d).2.foldl announce acc) r3 r1 r2
          refine ⟨hadd.1, ?_⟩
          show ((uevent_remove self d).2
              ++ (uevent_add_new p (uevent_remove self d).1 d).2).foldl announce acc |>.Perm _
          rw [List.foldl_append]
          exact hadd.2
        · rw [if_neg hstale]
          exact ⟨hnodup, hperm⟩
  · rw [if_neg hact]
    by_cases hrem : action = "remove"
    · rw [if_pos hrem]
      obtain ⟨r1, r2, -⟩ := remove_keeps_registry self d acc hnodup hperm
      exact ⟨r1, r2⟩
    · rw [if_neg hrem]
      exact ⟨hnodup, hperm⟩

/-- A sequence of events keeps the keys of the registry distinct and the
announcements equal to the classified objects. -/
theorem events_keep_registry (self : UpEnumeratorUdev) (events : List UEvent)
    (acc : List UpDevice)
    (hnodup : (self.known.map Prod.fst).Nodup)
    (hperm : acc.Perm (registered_devices self)) :
    ((handle_events self events).1.known.map Prod.fst).Nodup
    ∧ ((handle_events self events).2.foldl announce acc).Perm
        (registered_devices (handle_events self events).1) := by
  induction events generalizing self acc with
  | nil => exact ⟨hnodup, hperm⟩
  | cons e rest ih =>
    obtain ⟨s1, s2⟩ := handler_keeps_registry e.platform self e.action e.device acc hnodup hperm
    have hrest := ih (uevent_signal_handler_cb e.platform self e.action e.device).1
      ((uevent_signal_handler_cb e.platform self e.action e.device).2.foldl announce acc) s1 s2
    refine ⟨hrest.1, ?_⟩
    show ((uevent_signal_handler_cb e.platform self e.action e.device).2
        ++ (handle_events (uevent_signal_handler_cb e.platform self e.action e.device).1
            rest).2).foldl announce acc |>.Perm _
    rw [List.foldl_append]
    exact hrest.2

theorem mem_of_mem_steal {α : Type} (table : List (String × α)) (key : String)
    (e : String × α) (h : e ∈ g_hash_table_steal table key) : e ∈ table := by
  unfold g_hash_table_steal at h
  exact List.mem_of_mem_filter h

/-- One call of the handler keeps every classified object under the key of the
device it wraps. -/
theorem handler_keeps_keys (p : Platform) (self : UpEnumeratorUdev) (action : String)
    (d : GUdevDevice)
    (hkeys : ∀ k u, (k, GObject.up_device u) ∈ self.known → k = device_key u.native) :
    ∀ k u, (k, GObject.up_device u) ∈ (uevent_signal_handler_cb p self action d).1.known →
      k = device_key u.native := by
  have hremove : ∀ k u, (k, GObject.up_device u) ∈ (uevent_remove self d).1.known →
      k = device_key u.native := by
    intro k u hmem
    unfold uevent_remove at hmem
    dsimp only at hmem
    cases hl : g_hash_table_lookup self.known (device_key d) with
    | none =>
      rw [hl] at hmem
      exact hkeys k u hmem
    | some obj =>
      rw [hl] at hmem
      exact hkeys k u (mem_of_mem_steal _ _ _ hmem)
  have hadd : ∀ s : UpEnumeratorUdev,
      (∀ k u, (k, GObject.up_device u) ∈ s.known → k = device_key u.native) →
      ∀ k u, (k, GObject.up_device u) ∈ (uevent_add_new p s d).1.known →
        k = device_key u.native := by
    intro s hs k u hmem
    rcases add_new_registry p s d [] with ⟨u', hnew, hknown, -⟩ | ⟨g, hknown, -⟩
    · rw [hknown] at hmem
      unfold g_hash_table_insert at hmem
      rcases List.mem_cons.mp hmem with heq | hrest
      · cases heq
        rw [device_new_native p d u hnew]
      · exact hs k u (mem_of_mem_steal _ _ _ hrest)
    · rw [hknown] at hmem
      unfold g_hash_table_insert at hmem
      rcases List.mem_cons.mp hmem with heq | hrest
      · cases heq
      · exact hs k u (mem_of_mem_steal _ _ _ hrest)
  unfold uevent_signal_handler_cb
  by_cases hact : action = "change" ∨ action = "add"
  · rw [if_pos hact]
    cases hl : g_hash_table_lookup self.known (device_key d) with
    | none => exact hadd self hkeys
    | some obj =>
      cases obj with
      | udev_device g => exact hkeys
      | up_device o =>
        dsimp only
        by_cases hstale : action = "add" ∧ d.get_sysfs_path ≠ o.native.get_sysfs_path
        · rw [if_pos hstale]
          exact hadd _ hremove
        · rw [if_neg hstale]
          exact hkeys
  · rw [if_neg hact]
    by_cases hrem : action = "remove"
    · rw [if_pos hrem]
      exact hremove
    · rw [if_neg hrem]
      exact hkeys

/-- A sequence of events keeps every classified object under the key of the
device it wraps. -/
theorem events_keep_keys (self : UpEnumeratorUdev) (events : List UEvent)
    (hkeys : ∀ k u, (k, GObject.up_device u) ∈ self.known → k = device_key u.native) :
    ∀ k u, (k, GObject.up_device u) ∈ (handle_events self events).1.known →
      k = device_key u.native := by
  induction events generalizing self with
  | nil => exact hkeys
  | cons e rest ih =>
    exact ih _ (handler_keeps_keys e.platform self e.action e.device hkeys)

/-- Classified objects held under distinct keys, each the key of its device,
are distinct. -/
theorem registered_nodup (self : UpEnumeratorUdev)
    (hnodup : (self.known.map Prod.fst).Nodup)
    (hkeys : ∀ k u, (k, GObject.up_device u) ∈ self.known → k = device_key u.native) :
    (registered_devices self).Nodup := by
  unfold registered_devices
  generalize self.known = known at hnodup hkeys
  induction known with
  | nil => simp
  | cons e rest ih =>
    obtain ⟨k, v⟩ := e
    simp only [List.map_cons, List.nodup_cons] at hnodup
    have hrest := ih hnodup.2 (fun k' u hmem => hkeys k' u (List.mem_cons_of_mem _ hmem))
    cases v with
    | udev_device g =>
      rw [List.filterMap_cons_none (by rfl)]
      exact hrest
    | up_device u =>
      rw [List.filterMap_cons_some (by rfl)]
      refine List.nodup_cons.mpr ⟨?_, hrest⟩
      intro hmem
      obtain ⟨⟨k', v'⟩, hin, hv⟩ := List.mem_filterMap.mp hmem
      cases v' with
      | udev_device g => cases hv
      | up_device u' =>
        have hu : u' = u := by
          simpa using hv
        subst hu
        have hk' : k' = device_key u'.native := hkeys k' u' (List.mem_cons_of_mem _ hin)
        have hk : k = device_key u'.native := hkeys k u' (List.mem_cons_self _ _)
        apply hnodup.1
        rw [hk, ← hk']
        exact List.mem_map_of_mem Prod.fst hin

/-- The handler reaches the insertion into `known` exactly through the branch
that adds a new device, on the state that `state_at_insert` names, and there
the key is not in the registry. -/
theorem insert_on_free_key (p : Platform) (self : UpEnumeratorUdev) (action : String)
    (d : GUdevDevice) :
    (∀ s, state_at_insert self action d = some s →
        g_hash_table_lookup s.known (device_key d) = none
        ∧ (uevent_signal_handler_cb p self action d).1 = (uevent_add_new p s d).1
        ∧ (uevent_signal_handler_cb p self action d).1.known
            = (device_key d,
                (match device_new p d with
                  | some u => GObject.up_device u
                  | none => GObject.udev_device d)) :: s.known)
    ∧ (state_at_insert self action d = none →
        (uevent_signal_handler_cb p self action d).1.known = self.known
        ∨ (uevent_signal_handler_cb p self action d).1.known
            = g_hash_table_steal self.known (device_key d)) := by
  have hins : ∀ s : UpEnumeratorUdev, g_hash_table_lookup s.known (device_key d) = none →
      (uevent_add_new p s d).1.known
        = (device_key d,
            (match device_new p d with
              | some u => GObject.up_device u
              | none => GObject.udev_device d)) :: s.known := by
    intro s hs
    have hst := steal_of_absent s.known (device_key d) hs
    unfold uevent_add_new
    cases hp : device_parent_id d with
    | none =>
      show g_hash_table_insert s.known (device_key d) _ = _
      unfold g_hash_table_insert
      rw [hst]
    | some parent_id =>
      dsimp only
      cases hl : g_hash_table_lookup s.siblings parent_id with
      | none =>
        show g_hash_table_insert s.known (device_key d) _ = _
        unfold g_hash_table_insert
        rw [hst]
      | some devices =>
        show g_hash_table_insert s.known (device_key d) _ = _
        unfold g_hash_table_insert
        rw [hst]
  unfold state_at_insert uevent_signal_handler_cb
  by_cases hact : action = "change" ∨ action = "add"
  · rw [if_pos hact, if_pos hact]
    cases hl : g_hash_table_lookup self.known (device_key d) with
    | none =>
      refine ⟨?_, fun hnone => by cases hnone⟩
      intro s hs
      cases hs
      exact ⟨hl, rfl, hins self hl⟩
    | some obj =>
      cases obj with
      | udev_device g =>
        exact ⟨fun s hs => (by cases hs), fun _ => Or.inl rfl⟩
      | up_device o =>
        dsimp only
        by_cases hstale : action = "add" ∧ d.get_sysfs_path ≠ o.native.get_sysfs_path
        · rw [if_pos hstale, if_pos hstale]
          refine ⟨?_, fun hnone => by cases hnone⟩
          intro s hs
          cases hs
          have hfree : g_hash_table_lookup (uevent_remove self d).1.known (device_key d)
              = none := by
            unfold uevent_remove
            dsimp only
            rw [hl]
            exact lookup_steal _ _
          exact ⟨hfree, rfl, hins _ hfree⟩
        · rw [if_neg hstale, if_neg hstale]
          exact ⟨fun s hs => (by cases hs), fun _ => Or.inl rfl⟩
  · rw [if_neg hact, if_neg hact]
    refine ⟨fun s hs => (by cases hs), fun _ => ?_⟩
    by_cases hrem : action = "remove"
    · rw [if_pos hrem]
      unfold uevent_remove
      dsimp only
      cases hl : g_hash_table_lookup self.known (device_key d) with
      | none => exact Or.inl rfl
      | some obj => exact Or.inr rfl
    · rw [if_neg hrem]
      exact Or.inl rfl

/-- C21.  After every finite sequence of events handled from the empty
registry, the devices announced by `device-added` and not yet by
`device-removed` are the classified device objects that the registry holds:
the two lists are equal up to order, without repetition, so a device is
announced exactly when the registry holds its object.  And whenever a further
call of the handler inserts into the registry, the key is not in the registry
at that moment: the registry after the call is the one before the insertion
with the new entry in front. -/
theorem registry_matches_announcements (events : List UEvent) :
    (announced_devices (handle_events up_enumerator_udev_init events).2).Perm
        (registered_devices (handle_events up_enumerator_udev_init events).1)
    ∧ (registered_devices (handle_events up_enumerator_udev_init events).1).Nodup
    ∧ (∀ d, d ∈ announced_devices (handle_events up_enumerator_udev_init events).2
        ↔ d ∈ registered_devices (handle_events up_enumerator_udev_init events).1)
    ∧ ∀ (e : UEvent) (s : UpEnumeratorUdev),
        state_at_insert (handle_events up_enumerator_udev_init events).1 e.action e.device
          = some s →
        g_hash_table_lookup s.known (device_key e.device) = none
        ∧ (uevent_signal_handler_cb e.platform
              (handle_events up_enumerator_udev_init events).1 e.action e.device).1
            = (uevent_add_new e.platform s e.device).1
        ∧ (uevent_signal_handler_cb e.platform
              (handle_events up_enumerator_udev_init events).1 e.action e.device).1.known
            = (device_key e.device,
                (match device_new e.platform e.device with
                  | some u => GObject.up_device u
                  | none => GObject.udev_device e.device)) :: s.known := by
  obtain ⟨hnodup, hperm⟩ := events_keep_registry up_enumerator_udev_init events []
    (by simp [up_enumerator_udev_init]) (by simp [up_enumerator_udev_init, registered_devices])
  have hkeys := events_keep_keys up_enumerator_udev_init events
    (by intro k u hmem; simp [up_enumerator_udev_init] at hmem)
  have hperm' : (announced_devices (handle_events up_enumerator_udev_init events).2).Perm
      (registered_devices (handle_events up_enumerator_udev_init events).1) := hperm
  refine ⟨hperm', ?_, fun d => hperm'.mem_iff, fun e s hs => ?_⟩
  · -- the classified objects are distinct because their keys are
    exact registered_nodup _ hnodup hkeys
  · exact (insert_on_free_key e.platform _ e.action e.device).1 s hs

/-- C21, witness: the example sequence of events. -/
theorem registry_matches_announcements_witness :
    (announced_devices (handle_events up_enumerator_udev_init example_events).2).Perm
      (registered_devices (handle_events up_enumerator_udev_init example_events).1) :=
  (registry_matches_announcements example_events).1

/-- After the example sequence of events the moved battery and the receiver are
announced and registered. -/
theorem example_events_registry :
    announced_devices (handle_events up_enumerator_udev_init example_events).2
      = [supply_device bat0_moved,
         { type := UpDeviceType.hid, native := keyboard_receiver,
           ignore_system_percentage := false }]
    ∧ registered_devices (handle_events up_enumerator_udev_init example_events).1
      = [supply_device bat0_moved,
         { type := UpDeviceType.hid, native := keyboard_receiver,
           ignore_system_percentage := false }] := by
  decide

end UPower
